import Mathlib

/-!
# BeaverDam `Player` (annotator/static/player.js)

A shallow embedding of the `Player` class: the promise-based load coordination
(`videoLoaded`, `annotationsLoaded`, `loaded`), the bindings between the video's
current time and the two controls, and the annotation list operations.

Modelling conventions.
* JavaScript numbers are `JsNum`: the finite doubles as rationals, the two
  infinities and NaN. Every arithmetic result and every parsed literal is rounded
  to the nearest double, ties to even, and overflows to an infinity (`round64`);
  a finite value that enters from outside (a media time, a coordinate) is meant to
  be a double. The two zeros of a double are identified; no statement below
  depends on the sign of a zero.
* Strings handled by the controls are `JsStr`: literal text, or the canonical
  rendering `ToString(x)` of a number `x` (what `.val(x)` stores for a number).
* Each role (`player-control-time`, `player-control-scrubber`) names one element
  of the container; a control keeps the value that `.val(x)` hands to it, the
  value sanitisation of the element itself (range limits, steps) is not modelled.
* The `<video>` element is a record. Its `currentTime` attribute is a restricted
  double: assigning a non-finite value throws a TypeError and leaves the time as
  it was; a finite value is stored (the seek is taken to reach it).
* The classes `Thing`, the drawing surface and the network are collaborators that
  are not part of `player.js`; they enter through `Env` and through the events.
* One `Event` is one browser task; the promise jobs it triggers are run to
  completion inside the handler of that event.
-/

namespace BeaverDam

/-! ## Numbers -/

/-- JavaScript number: a finite double (as the rational it denotes), an infinity,
or NaN -/
inductive JsNum where
  | fin (q : ℚ)
  | pinf
  | ninf
  | nan
  deriving DecidableEq

/-- Nearest integer, ties to the even one -/
def roundHalfEven (m : ℚ) : ℤ :=
  if m - ⌊m⌋ < 1 / 2 then ⌊m⌋
  else if 1 / 2 < m - ⌊m⌋ then ⌊m⌋ + 1
  else if ⌊m⌋ % 2 = 0 then ⌊m⌋ else ⌊m⌋ + 1

/-- Spacing of the doubles around the positive value `q`: `2 ^ (e - 52)` in the
binade `2 ^ e ≤ q < 2 ^ (e + 1)`, and `2 ^ (-1074)` below the normal range -/
def ulp (q : ℚ) : ℚ :=
  (2 : ℚ) ^ (max (Int.log 2 q) (-1022) - 52)

/-- Rounding of an exact result to a double (IEEE 754 binary64, round to nearest,
ties to even): a magnitude of at least `2 ^ 1024 - 2 ^ 970` overflows to an
infinity, any other is rounded to the nearest multiple of the spacing -/
def round64 (q : ℚ) : JsNum :=
  if q = 0 then JsNum.fin 0
  else if (2 : ℚ) ^ (1024 : ℤ) - (2 : ℚ) ^ (970 : ℤ) ≤ |q| then
    (if 0 < q then JsNum.pinf else JsNum.ninf)
  else if 0 < q then JsNum.fin (roundHalfEven (|q| / ulp |q|) * ulp |q|)
  else JsNum.fin (-(roundHalfEven (|q| / ulp |q|) * ulp |q|))

namespace JsNum

/-- Number.isFinite -/
def isFinite : JsNum → Bool
  | fin _ => true
  | _ => false

/-- Unary minus -/
def neg : JsNum → JsNum
  | fin q => fin (-q)
  | pinf => ninf
  | ninf => pinf
  | nan => nan

/-- The `*` operator: the exact product, rounded -/
def mul : JsNum → JsNum → JsNum
  | nan, _ => nan
  | _, nan => nan
  | fin a, fin b => round64 (a * b)
  | fin a, pinf => if a = 0 then nan else if 0 < a then pinf else ninf
  | fin a, ninf => if a = 0 then nan else if 0 < a then ninf else pinf
  | pinf, fin b => if b = 0 then nan else if 0 < b then pinf else ninf
  | ninf, fin b => if b = 0 then nan else if 0 < b then ninf else pinf
  | pinf, pinf => pinf
  | pinf, ninf => ninf
  | ninf, pinf => ninf
  | ninf, ninf => pinf

/-- The `/` operator: the exact quotient, rounded; a finite non-zero value divided
by zero is an infinity and `0 / 0` is NaN -/
def div : JsNum → JsNum → JsNum
  | nan, _ => nan
  | _, nan => nan
  | fin a, fin b =>
    if b = 0 then (if a = 0 then nan else if 0 < a then pinf else ninf)
    else round64 (a / b)
  | fin _, pinf => fin 0
  | fin _, ninf => fin 0
  | pinf, fin b => if 0 ≤ b then pinf else ninf
  | ninf, fin b => if 0 ≤ b then ninf else pinf
  | pinf, pinf => nan
  | pinf, ninf => nan
  | ninf, pinf => nan
  | ninf, ninf => nan

instance : Mul JsNum := ⟨mul⟩
instance : Div JsNum := ⟨div⟩

end JsNum

/-! ## Strings, `parseFloat` and `toFixed` -/

/-- String value held by a form control: literal text, or `ToString(x)` for a number -/
inductive JsStr where
  | text (s : String)
  | ofNum (x : JsNum)
  deriving DecidableEq

/-- White space and line terminators skipped by `parseFloat` (TrimString) -/
def isStrWhiteSpaceChar (c : Char) : Bool :=
  [0x9, 0xA, 0xB, 0xC, 0xD, 0x20, 0xA0, 0x1680, 0x2028, 0x2029, 0x202F, 0x205F,
    0x3000, 0xFEFF].contains c.toNat || (0x2000 ≤ c.toNat && c.toNat ≤ 0x200A)

/-- Value of a run of decimal digits -/
def digitsValue (ds : List Char) : Nat :=
  ds.foldl (fun n c => 10 * n + (c.toNat - 48)) 0

/-- Value of an optional ExponentPart at the head of the input; `0` when the
input does not start with a complete ExponentPart -/
def exponentPart : List Char → Int
  | c :: rest =>
    if c = 'e' ∨ c = 'E' then
      match rest with
      | '+' :: ds => Int.ofNat (digitsValue (ds.takeWhile Char.isDigit))
      | '-' :: ds => - Int.ofNat (digitsValue (ds.takeWhile Char.isDigit))
      | ds => Int.ofNat (digitsValue (ds.takeWhile Char.isDigit))
    else 0
  | [] => 0

/-- Number value of the longest prefix that is a StrUnsignedDecimalLiteral: its
mathematical value, rounded; `none` when there is no such prefix -/
def strUnsignedDecimalLiteral (cs : List Char) : Option JsNum :=
  if "Infinity".toList.isPrefixOf cs then some JsNum.pinf
  else
    let ip := cs.takeWhile Char.isDigit
    let r1 := cs.dropWhile Char.isDigit
    let fp := match r1 with
      | '.' :: t => t.takeWhile Char.isDigit
      | _ => []
    let r2 := match r1 with
      | '.' :: t => t.dropWhile Char.isDigit
      | _ => r1
    if ip.isEmpty && fp.isEmpty then none
    else some (round64 ((digitsValue (ip ++ fp) : ℚ)
      * (10 : ℚ) ^ (exponentPart r2 - Int.ofNat fp.length)))

/-- Number value of the longest prefix that is a StrDecimalLiteral (an optionally
signed StrUnsignedDecimalLiteral), `none` when there is no such prefix -/
def strDecimalLiteral : List Char → Option JsNum
  | '+' :: r => strUnsignedDecimalLiteral r
  | '-' :: r => (strUnsignedDecimalLiteral r).map JsNum.neg
  | r => strUnsignedDecimalLiteral r

/-- The input of `parseFloat` with its leading white space removed -/
def trimStart (s : String) : List Char :=
  s.toList.dropWhile isStrWhiteSpaceChar

/-- The global `parseFloat`, applied to the string value of a control: NaN when
the trimmed input has no prefix that is a StrDecimalLiteral -/
def parseFloat : JsStr → JsNum
  | JsStr.ofNum x => x
  | JsStr.text s => (strDecimalLiteral (trimStart s)).getD JsNum.nan

/-- Left-pad a digit string with zeros up to length `n` -/
def padZeros (n : Nat) (ds : List Char) : List Char :=
  List.replicate (n - ds.length) '0' ++ ds

/-- The call `x.toFixed(2)` of Number.prototype.toFixed -/
def toFixed2 : JsNum → JsStr
  | JsNum.fin q =>
    if (10 : ℚ) ^ 21 ≤ |q| then JsStr.ofNum (JsNum.fin q)
    else
      let n := (Rat.floor (|q| * 100 + 1 / 2)).toNat
      let ds := padZeros 3 (Nat.repr n).toList
      JsStr.text ((if q < 0 then "-" else "")
        ++ String.mk (ds.take (ds.length - 2)) ++ "." ++ String.mk (ds.drop (ds.length - 2)))
  | x => JsStr.ofNum x

/-! ## Data model -/

/-- Bounds passed to `thing.drawing.setBounds` -/
structure Bounds where
  xMin : JsNum
  xMax : JsNum
  yMin : JsNum
  yMax : JsNum
  deriving DecidableEq

/-- Method calls that `Player` makes on a `Thing` -/
inductive Call where
  | drawAtTime (t : JsNum)
  | setBounds (b : Bounds)
  | onDragStart
  deriving DecidableEq

/-- An annotation entity; its own fields are the opaque `data`, and `calls` is the
sequence of methods `Player` has invoked on it, oldest first -/
structure Thing where
  data : Nat
  calls : List Call
  deriving DecidableEq

/-- The `<video>` element as far as `Player` reads or writes it -/
structure Video where
  currentTime : JsNum
  duration : JsNum
  videoWidth : Nat
  videoHeight : Nat
  paused : Bool
  deriving DecidableEq

/-- A form control of the player (`.player-control-time`, `.player-control-scrubber`) -/
structure Control where
  value : JsStr
  focused : Bool
  deriving DecidableEq

/-- Reasons with which the promises of the player are rejected, and what its
handlers throw -/
inductive Reason where
  | aborted
  | fetchFailed
  | jsonFailed
  | mapThrew
  | typeError
  | drawThrew
  deriving DecidableEq

/-- State of a promise -/
inductive Settlement where
  | pending
  | resolved
  | rejected (r : Reason)
  deriving DecidableEq

/-- Fresh promise of `makeCustomPromise` -/
def makeCustomPromise : Settlement := Settlement.pending

namespace Settlement

/-- The call `cond.resolve()`; only the first settlement has an effect -/
def resolve : Settlement → Settlement
  | pending => resolved
  | s => s

/-- The call `cond.reject(r)`; only the first settlement has an effect -/
def reject (r : Reason) : Settlement → Settlement
  | pending => rejected r
  | s => s

/-- Whether the promise is rejected -/
def isRejected : Settlement → Bool
  | rejected _ => true
  | _ => false

end Settlement

/-- The promise returned by `Promise.all` over two promises: the count of
elements still to be fulfilled and the state of the combined promise -/
structure PromiseAll where
  remaining : Nat
  state : Settlement
  deriving DecidableEq

namespace PromiseAll

/-- The promise `Promise.all([a, b])` right after its creation -/
def create : PromiseAll := ⟨2, Settlement.pending⟩

/-- Reaction run when one element is fulfilled -/
def elementFulfilled (a : PromiseAll) : PromiseAll :=
  if a.remaining - 1 = 0 then ⟨0, a.state.resolve⟩ else ⟨a.remaining - 1, a.state⟩

/-- Reaction run when one element is rejected -/
def elementRejected (r : Reason) (a : PromiseAll) : PromiseAll :=
  { a with state := a.state.reject r }

end PromiseAll

/-- Progress of the promise chain built by `loadAnnotations` -/
inductive LoadStage where
  | fetching
  | decoding
  | awaitingVideo
  | settled
  deriving DecidableEq

/-- The player object -/
structure Player where
  src : String
  name : String
  video : Video
  elControlTime : Control
  elControlScrubber : Control
  paper : Option (Nat × Nat)
  things : Option (List Thing)
  videoLoaded : Settlement
  annotationsLoaded : Settlement
  loaded : PromiseAll
  stage : LoadStage
  drawPasses : Nat
  deriving DecidableEq

/-- Decoded JSON body of the annotation resource -/
inductive Json where
  | array (items : List Nat)
  | other
  deriving DecidableEq

/-- Collaborators of `Player` that live outside `player.js` -/
structure Env where
  fromJson : Nat → Option Thing
  toJson : Thing → Nat
  newThing : Player → Thing
  drawThrows : Thing → JsNum → Bool

/-! ## Operations of `Player` -/

namespace Player

/-- Getter `videoTime` -/
def videoTime (p : Player) : JsNum := p.video.currentTime

/-- Setter `videoTime`: assigns `video.currentTime`. The attribute is a restricted
double, so the assignment of a non-finite value throws a TypeError (second
component) and changes nothing -/
def setVideoTime (p : Player) (value : JsNum) : Player × Option Reason :=
  if value.isFinite then ({ p with video := { p.video with currentTime := value } }, none)
  else (p, some Reason.typeError)

/-- Getter `controlTime` -/
def controlTime (p : Player) : JsNum := parseFloat p.elControlTime.value

/-- Getter `controlTimeUnfocused` -/
def controlTimeUnfocused (p : Player) : JsNum := p.controlTime

/-- Setter `controlTimeUnfocused`: the selector `control-time:not(:focus)` matches
the control only while it does not have focus -/
def setControlTimeUnfocused (p : Player) (value : JsNum) : Player :=
  if p.elControlTime.focused then p
  else { p with elControlTime := { p.elControlTime with value := toFixed2 value } }

/-- Getter `controlScrubber` -/
def controlScrubber (p : Player) : JsNum :=
  parseFloat p.elControlScrubber.value / JsNum.fin 10000 * p.video.duration

/-- Getter `controlScrubberUnfocused` -/
def controlScrubberUnfocused (p : Player) : JsNum := p.controlScrubber

/-- Setter `controlScrubberUnfocused`: the selector `control-scrubber:not(:focus)`
matches the control only while it does not have focus -/
def setControlScrubberUnfocused (p : Player) (value : JsNum) : Player :=
  if p.elControlScrubber.focused then p
  else { p with elControlScrubber :=
    { p.elControlScrubber with value := JsStr.ofNum (value * JsNum.fin 10000 / p.video.duration) } }

/-- Method `initPaper`: a drawing surface of the video's intrinsic size -/
def initPaper (p : Player) : Player :=
  { p with paper := some (p.video.videoWidth, p.video.videoHeight) }

/-- The loop of `drawAnnotations` over the things, in order; the result carries
what was thrown when a `drawAtTime` throws, which ends the loop -/
def drawLoop (env : Env) (t : JsNum) : List Thing → List Thing × Option Reason
  | [] => ([], none)
  | th :: rest =>
    let th1 : Thing := { th with calls := th.calls ++ [Call.drawAtTime t] }
    if env.drawThrows th t then (th1 :: rest, some Reason.drawThrew)
    else ((th1 :: (drawLoop env t rest).1), (drawLoop env t rest).2)

/-- Method `drawAnnotations`; `drawPasses` counts its invocations, and iterating
over `things` while it is still undefined throws a TypeError -/
def drawAnnotations (env : Env) (p : Player) : Player × Option Reason :=
  let p1 := { p with drawPasses := p.drawPasses + 1 }
  match p1.things with
  | none => (p1, some Reason.typeError)
  | some l =>
    ({ p1 with things := some (drawLoop env p1.video.currentTime l).1 },
      (drawLoop env p1.video.currentTime l).2)

/-- Method `setupNewThing(x, y)`; `none` when `things.push` throws because
`things` is still undefined -/
def setupNewThing (env : Env) (p : Player) (x y : JsNum) : Option Player :=
  let thing := env.newThing p
  match p.things with
  | none => none
  | some l =>
    let thing1 : Thing := { thing with calls := thing.calls ++ [Call.setBounds ⟨x, x, y, y⟩] }
    let thing2 : Thing := { thing1 with calls := thing1.calls ++ [Call.onDragStart] }
    some { p with things := some (l ++ [thing2]) }

/-! ### Promise plumbing of the constructor -/

/-- The promise `annotationsLoaded` is resolved by the chain of `loadAnnotations`;
`Promise.all` is notified -/
def annotationsResolve (p : Player) : Player :=
  match p.annotationsLoaded with
  | Settlement.pending =>
    { p with stage := LoadStage.settled, annotationsLoaded := Settlement.resolved,
             loaded := p.loaded.elementFulfilled }
  | _ => { p with stage := LoadStage.settled }

/-- The promise `annotationsLoaded` is rejected by the chain of `loadAnnotations`;
`Promise.all` is notified -/
def annotationsReject (p : Player) (r : Reason) : Player :=
  match p.annotationsLoaded with
  | Settlement.pending =>
    { p with stage := LoadStage.settled, annotationsLoaded := Settlement.rejected r,
             loaded := p.loaded.elementRejected r }
  | _ => { p with stage := LoadStage.settled }

/-- The continuation `() => { this.drawAnnotations(); return Promise.resolve(); }`
of `loadAnnotations`, followed by the settlement of `annotationsLoaded` -/
def initialDraw (env : Env) (p : Player) : Player :=
  match (p.drawAnnotations env).2 with
  | none => (p.drawAnnotations env).1.annotationsResolve
  | some r => (p.drawAnnotations env).1.annotationsReject r

/-- The call `videoLoaded.resolve()` and the reactions it triggers, in the order
in which they were registered -/
def videoLoadedResolve (env : Env) (p : Player) : Player :=
  match p.videoLoaded with
  | Settlement.pending =>
    let p1 := { p with videoLoaded := Settlement.resolved, loaded := p.loaded.elementFulfilled }
    match p1.stage with
    | LoadStage.awaitingVideo => p1.initialDraw env
    | _ => p1
  | _ => p

/-- The call `videoLoaded.reject()` and the reactions it triggers -/
def videoLoadedReject (p : Player) : Player :=
  match p.videoLoaded with
  | Settlement.pending =>
    let p1 := { p with videoLoaded := Settlement.rejected Reason.aborted,
                       loaded := p.loaded.elementRejected Reason.aborted }
    match p1.stage with
    | LoadStage.awaitingVideo => p1.annotationsReject Reason.aborted
    | _ => p1
  | _ => p

/-- The second `then` callback of `loadAnnotations`, run with the decoded JSON:
`this.things = json.map(...)`, then wait for `videoLoaded` before drawing -/
def onJson (env : Env) (p : Player) : Json → Player
  | Json.other => p.annotationsReject Reason.mapThrew
  | Json.array items =>
    match items.mapM env.fromJson with
    | none => p.annotationsReject Reason.mapThrew
    | some l =>
      let p1 := { p with things := some l }
      match p1.videoLoaded with
      | Settlement.resolved => p1.initialDraw env
      | Settlement.rejected r => p1.annotationsReject r
      | Settlement.pending => { p1 with stage := LoadStage.awaitingVideo }

/-- The three `timeupdate` handlers installed by `setVideoHandlers`, in the order
of their registration -/
def onTimeupdate (env : Env) (p : Player) : Player :=
  (((p.setControlTimeUnfocused p.videoTime).setControlScrubberUnfocused
    p.videoTime).drawAnnotations env).1

/-- Handler of `click` on the play control: `this.video.play()` -/
def onControlPlayClick (p : Player) : Player :=
  { p with video := { p.video with paused := false } }

/-- Handler of `click` on the pause control: `this.video.pause()` -/
def onControlPauseClick (p : Player) : Player :=
  { p with video := { p.video with paused := true } }

/-- Handler of `change` on the time control: `this.videoTime = this.controlTime`;
the player afterwards and what the handler throws -/
def onControlTimeChange (p : Player) : Player × Option Reason :=
  p.setVideoTime p.controlTime

/-- Handler of `change input` on the scrubber: `this.videoTime = this.controlScrubber`;
the player afterwards and what the handler throws -/
def onControlScrubberInput (p : Player) : Player × Option Reason :=
  p.setVideoTime p.controlScrubber

/-- The constructor, up to the first event: the promises are pending, the fetch of
`loadAnnotations` is in flight and `things` has not been assigned -/
def create (src name : String) (video : Video) (ct cs : Control) : Player :=
  { src := src, name := name, video := video, elControlTime := ct, elControlScrubber := cs,
    paper := none, things := none,
    videoLoaded := makeCustomPromise, annotationsLoaded := makeCustomPromise,
    loaded := PromiseAll.create, stage := LoadStage.fetching, drawPasses := 0 }

end Player

/-! ## Events -/

/-- Browser tasks delivered to the player -/
inductive Event where
  | loadedmetadata (duration : JsNum) (width height : Nat)
  | abort
  | fetchFulfilled
  | fetchRejected
  | jsonFulfilled (json : Json)
  | jsonRejected
  | timeupdate (t : JsNum)
  deriving DecidableEq

/-- Handling of one event, promise jobs included. An event of the annotation
fetch that does not fit the stage of the chain cannot occur and changes nothing -/
def step (env : Env) (p : Player) : Event → Player
  | Event.loadedmetadata d w h =>
    let p1 := { p with video := { p.video with duration := d, videoWidth := w, videoHeight := h } }
    p1.initPaper.videoLoadedResolve env
  | Event.abort => p.videoLoadedReject
  | Event.fetchFulfilled =>
    match p.stage with
    | LoadStage.fetching => { p with stage := LoadStage.decoding }
    | _ => p
  | Event.fetchRejected =>
    match p.stage with
    | LoadStage.fetching => p.annotationsReject Reason.fetchFailed
    | _ => p
  | Event.jsonFulfilled json =>
    match p.stage with
    | LoadStage.decoding => p.onJson env json
    | _ => p
  | Event.jsonRejected =>
    match p.stage with
    | LoadStage.decoding => p.annotationsReject Reason.jsonFailed
    | _ => p
  | Event.timeupdate t =>
    Player.onTimeupdate env { p with video := { p.video with currentTime := t } }

/-- Handling of a sequence of events, oldest first -/
def run (env : Env) (p : Player) (es : List Event) : Player :=
  es.foldl (step env) p

/-! ## Saving -/

/-- The response of the annotation resource as far as `saveAnnotations` reads it -/
structure Response where
  ok : Bool
  status : Nat
  deriving DecidableEq

/-- The request issued by `saveAnnotations` -/
structure Request where
  url : String
  method : String
  contentType : String
  body : List Nat
  deriving DecidableEq

/-- How the promise returned by `saveAnnotations` settles -/
inductive SaveOutcome where
  | resolved (message : String)
  | rejected (message : String)
  | fetchRejected
  deriving DecidableEq

/-- Method `saveAnnotations` together with the result of its fetch (`none`: the
fetch itself fails): the request sent, how the returned promise settles, and the
player afterwards. The whole result is `none` when `things.map` throws because
`things` is still undefined -/
def Player.saveAnnotations (env : Env) (p : Player) (resp : Option Response) :
    Option (Request × SaveOutcome × Player) :=
  match p.things with
  | none => none
  | some l =>
    let json := l.map env.toJson
    let req : Request := ⟨"/annotation/" ++ p.name, "post", "application/json", json⟩
    match resp with
    | none => some (req, SaveOutcome.fetchRejected, p)
    | some response =>
      if response.ok then some (req, SaveOutcome.resolved "State saved successfully.", p)
      else some (req, SaveOutcome.rejected ("Error code " ++ toString response.status), p)

/-! ## Example states -/

/-- A video of 100 seconds, positioned at 25 seconds -/
def sampleVideo : Video := ⟨JsNum.fin 25, JsNum.fin 100, 640, 480, true⟩

/-- A player on `sampleVideo`, scrubber at raw value 5000, no control focused -/
def samplePlayer : Player :=
  Player.create "/static/v.mp4" "v" sampleVideo ⟨JsStr.text "0.00", false⟩
    ⟨JsStr.text "5000", false⟩

/-- The sample player while the user edits the time control -/
def timeFocusedPlayer : Player :=
  { samplePlayer with elControlTime := ⟨JsStr.text "12.", true⟩ }

/-- The sample player while the user drags the scrubber -/
def scrubberFocusedPlayer : Player :=
  { samplePlayer with elControlScrubber := ⟨JsStr.text "7000", true⟩ }

/-- The sample player on a video that reports a duration of zero -/
def zeroDurationPlayer : Player :=
  { samplePlayer with video := { sampleVideo with duration := JsNum.fin 0 } }

/-- The sample player before the metadata is known: the duration is NaN -/
def unknownDurationPlayer : Player :=
  { samplePlayer with video := { sampleVideo with duration := JsNum.nan } }

/-- The sample player on a video of 3 seconds, scrubber at raw value 1 -/
def thirdsPlayer : Player :=
  { samplePlayer with
    video := { sampleVideo with duration := JsNum.fin 3 },
    elControlScrubber := ⟨JsStr.text "1", false⟩ }

/-- The sample player after the user typed text that is not a number -/
def badTimeTextPlayer : Player :=
  { samplePlayer with elControlTime := ⟨JsStr.text "abc", true⟩ }

/-- Collaborators that never throw -/
def sampleEnv : Env :=
  { fromJson := fun n => some ⟨n, []⟩, toJson := fun th => th.data,
    newThing := fun _ => ⟨0, []⟩, drawThrows := fun _ _ => false }

/-- The sample player once one annotation has been loaded and drawn -/
def populatedPlayer : Player :=
  { samplePlayer with
    paper := some (640, 480), things := some [⟨7, [Call.drawAtTime (JsNum.fin 25)]⟩],
    videoLoaded := Settlement.resolved, annotationsLoaded := Settlement.resolved,
    loaded := ⟨0, Settlement.resolved⟩, stage := LoadStage.settled, drawPasses := 1 }

/-! ## Invariant of the load coordination -/

/-- Invariant of the load coordination, on the five values it reads: the states
of `videoLoaded` and `annotationsLoaded`, the `Promise.all` record, the stage of
the `loadAnnotations` chain and whether `things` has been assigned -/
def InvC (vl al : Settlement) (ld : PromiseAll) (stage : LoadStage) (has : Bool) : Prop :=
  ld.remaining = (if vl = Settlement.resolved then 0 else 1)
      + (if al = Settlement.resolved then 0 else 1)
  ∧ (ld.state = Settlement.resolved ↔ vl = Settlement.resolved ∧ al = Settlement.resolved)
  ∧ (ld.state.isRejected = true ↔ (vl.isRejected = true ∨ al.isRejected = true))
  ∧ (stage = LoadStage.settled ↔ al ≠ Settlement.pending)
  ∧ (stage = LoadStage.awaitingVideo → vl = Settlement.pending ∧ has = true)
  ∧ ((stage = LoadStage.fetching ∨ stage = LoadStage.decoding) → has = false)
  ∧ (al = Settlement.resolved → has = true ∧ vl = Settlement.resolved)
  ∧ (∀ r, al = Settlement.rejected r →
      ((r = Reason.fetchFailed ∨ r = Reason.jsonFailed ∨ r = Reason.mapThrew) ∧ has = false)
      ∨ ((r = Reason.aborted ∨ r = Reason.drawThrew) ∧ has = true))
  ∧ (∀ r, vl = Settlement.rejected r → r = Reason.aborted)

/-- The invariant on a player -/
def Inv (p : Player) : Prop :=
  InvC p.videoLoaded p.annotationsLoaded p.loaded p.stage p.things.isSome

/-- States of the player that the constructor and a sequence of events produce -/
def Reachable (env : Env) (p : Player) : Prop :=
  ∃ (src name : String) (video : Video) (ct cs : Control) (es : List Event),
    p = run env (Player.create src name video ct cs) es

/-! ## Arithmetic lemmas -/

theorem roundHalfEven_eq (m : ℚ) (n : ℤ) (h1 : (n : ℚ) - 1 / 2 < m) (h2 : m < n + 1 / 2) :
    roundHalfEven m = n := by
  unfold roundHalfEven
  have hf1 : (⌊m⌋ : ℚ) ≤ m := Int.floor_le m
  have hf2 : m < ⌊m⌋ + 1 := Int.lt_floor_add_one m
  have hlo : n - 1 ≤ ⌊m⌋ := by
    have := Int.cast_lt.mp
      (by push_cast; linarith : ((n - 1 : ℤ) : ℚ) < ((⌊m⌋ + 1 : ℤ) : ℚ))
    omega
  have hhi : ⌊m⌋ ≤ n := by
    have := Int.cast_lt.mp (by push_cast; linarith : ((⌊m⌋ : ℤ) : ℚ) < ((n + 1 : ℤ) : ℚ))
    omega
  rcases (by omega : ⌊m⌋ = n ∨ ⌊m⌋ = n - 1) with h | h
  · have hc : (⌊m⌋ : ℚ) = n := by exact_mod_cast h
    rw [if_pos (by rw [hc]; linarith)]
    exact h
  · have hc : (⌊m⌋ : ℚ) = n - 1 := by rw [h]; push_cast; ring
    rw [if_neg (by rw [hc]; linarith), if_pos (by rw [hc]; linarith)]
    omega

theorem ulp_eq (q : ℚ) (e : ℤ) (hq : 0 < q) (he : -1022 ≤ e) (h1 : (2 : ℚ) ^ e ≤ q)
    (h2 : q < (2 : ℚ) ^ (e + 1)) : ulp q = (2 : ℚ) ^ (e - 52) := by
  have hlog : Int.log 2 q = e := by
    have a : e ≤ Int.log 2 q :=
      (Int.zpow_le_iff_le_log (by norm_num) hq).mp (by simpa using h1)
    have b : Int.log 2 q < e + 1 :=
      (Int.lt_zpow_iff_log_lt (by norm_num) hq).mp (by simpa using h2)
    omega
  unfold ulp
  rw [hlog, max_eq_left he]

/-- Rounding a positive value of the normal range that does not overflow: the
result is the multiple `n * 2 ^ (e - 52)` of the spacing of its binade `e` that
is nearest to it -/
theorem round64_eq (q : ℚ) (e n : ℤ) (hq : 0 < q) (he : -1022 ≤ e) (h1 : (2 : ℚ) ^ e ≤ q)
    (h2 : q < (2 : ℚ) ^ (e + 1)) (hov : q < (2 : ℚ) ^ (1024 : ℤ) - (2 : ℚ) ^ (970 : ℤ))
    (hn1 : (n : ℚ) - 1 / 2 < q / (2 : ℚ) ^ (e - 52))
    (hn2 : q / (2 : ℚ) ^ (e - 52) < n + 1 / 2) :
    round64 q = JsNum.fin (n * (2 : ℚ) ^ (e - 52)) := by
  unfold round64
  rw [if_neg hq.ne', abs_of_pos hq, if_neg (not_le.mpr hov), if_pos hq,
    ulp_eq q e hq he h1 h2, roundHalfEven_eq _ n hn1 hn2]

theorem round64_zero : round64 0 = JsNum.fin 0 := by
  simp [round64]

/-- Below the overflow threshold the rounded result is finite -/
theorem round64_of_lt (q : ℚ) (h : |q| < (2 : ℚ) ^ (1024 : ℤ) - (2 : ℚ) ^ (970 : ℤ)) :
    ∃ x : ℚ, round64 q = JsNum.fin x := by
  unfold round64
  by_cases h0 : q = 0
  · exact ⟨0, by rw [if_pos h0]⟩
  · rw [if_neg h0, if_neg (not_le.mpr h)]
    by_cases hp : 0 < q
    · exact ⟨_, by rw [if_pos hp]⟩
    · exact ⟨_, by rw [if_neg hp]⟩

theorem JsNum.fin_mul_fin (a b : ℚ) : JsNum.fin a * JsNum.fin b = round64 (a * b) := rfl

theorem JsNum.fin_div_fin (a b : ℚ) (hb : b ≠ 0) :
    JsNum.fin a / JsNum.fin b = round64 (a / b) := by
  show JsNum.div _ _ = _
  simp [JsNum.div, hb]

theorem JsNum.mul_nan (x : JsNum) : x * JsNum.nan = JsNum.nan := by
  show JsNum.mul _ _ = _
  cases x <;> rfl

theorem JsNum.div_nan (x : JsNum) : x / JsNum.nan = JsNum.nan := by
  show JsNum.div _ _ = _
  cases x <;> rfl

/-- Whatever is divided by zero, the result is an infinity or NaN -/
theorem JsNum.div_zero_not_finite (x : JsNum) :
    (x / JsNum.fin 0).isFinite = false := by
  show (JsNum.div _ _).isFinite = false
  cases x with
  | fin a =>
    by_cases h0 : a = 0
    · simp [JsNum.div, h0, JsNum.isFinite]
    · by_cases hp : 0 < a <;> simp [JsNum.div, h0, hp, JsNum.isFinite]
  | pinf => simp [JsNum.div, JsNum.isFinite]
  | ninf => simp [JsNum.div, JsNum.isFinite]
  | nan => simp [JsNum.div, JsNum.isFinite]

/-! ### Rounded results at the numbers of the examples -/

theorem round64_1 : round64 (1) = JsNum.fin (1) := by
  rw [round64_eq (1) 0 4503599627370496 (by norm_num) (by norm_num) (by norm_num)
    (by norm_num) (by norm_num) (by norm_num) (by norm_num)]
  norm_num

theorem round64_25 : round64 (25) = JsNum.fin (25) := by
  rw [round64_eq (25) 4 7036874417766400 (by norm_num) (by norm_num) (by norm_num)
    (by norm_num) (by norm_num) (by norm_num) (by norm_num)]
  norm_num

theorem round64_5000 : round64 (5000) = JsNum.fin (5000) := by
  rw [round64_eq (5000) 12 5497558138880000 (by norm_num) (by norm_num) (by norm_num)
    (by norm_num) (by norm_num) (by norm_num) (by norm_num)]
  norm_num

theorem round64_half : round64 (1 / 2) = JsNum.fin (1 / 2) := by
  rw [round64_eq (1 / 2) (-1) 4503599627370496 (by norm_num) (by norm_num) (by norm_num)
    (by norm_num) (by norm_num) (by norm_num) (by norm_num)]
  norm_num

theorem round64_quarter : round64 (1 / 4) = JsNum.fin (1 / 4) := by
  rw [round64_eq (1 / 4) (-2) 4503599627370496 (by norm_num) (by norm_num) (by norm_num)
    (by norm_num) (by norm_num) (by norm_num) (by norm_num)]
  norm_num

theorem round64_50 : round64 (50) = JsNum.fin (50) := by
  rw [round64_eq (50) 5 7036874417766400 (by norm_num) (by norm_num) (by norm_num)
    (by norm_num) (by norm_num) (by norm_num) (by norm_num)]
  norm_num

theorem round64_2500 : round64 (2500) = JsNum.fin (2500) := by
  rw [round64_eq (2500) 11 5497558138880000 (by norm_num) (by norm_num) (by norm_num)
    (by norm_num) (by norm_num) (by norm_num) (by norm_num)]
  norm_num

theorem round64_250000 : round64 (250000) = JsNum.fin (250000) := by
  rw [round64_eq (250000) 17 8589934592000000 (by norm_num) (by norm_num) (by norm_num)
    (by norm_num) (by norm_num) (by norm_num) (by norm_num)]
  norm_num

theorem round64_500000 : round64 (500000) = JsNum.fin (500000) := by
  rw [round64_eq (500000) 18 8589934592000000 (by norm_num) (by norm_num) (by norm_num)
    (by norm_num) (by norm_num) (by norm_num) (by norm_num)]
  norm_num

theorem round64_5000_div : round64 (5000 / 10000) = JsNum.fin (1 / 2) := by
  rw [round64_eq (5000 / 10000) (-1) 4503599627370496 (by norm_num) (by norm_num) (by norm_num)
    (by norm_num) (by norm_num) (by norm_num) (by norm_num)]
  norm_num

theorem round64_half_mul : round64 (1 / 2 * 100) = JsNum.fin (50) := by
  rw [round64_eq (1 / 2 * 100) 5 7036874417766400 (by norm_num) (by norm_num) (by norm_num)
    (by norm_num) (by norm_num) (by norm_num) (by norm_num)]
  norm_num

theorem round64_25_mul : round64 (25 * 10000) = JsNum.fin (250000) := by
  rw [round64_eq (25 * 10000) 17 8589934592000000 (by norm_num) (by norm_num) (by norm_num)
    (by norm_num) (by norm_num) (by norm_num) (by norm_num)]
  norm_num

theorem round64_250000_div : round64 (250000 / 100) = JsNum.fin (2500) := by
  rw [round64_eq (250000 / 100) 11 5497558138880000 (by norm_num) (by norm_num) (by norm_num)
    (by norm_num) (by norm_num) (by norm_num) (by norm_num)]
  norm_num

theorem round64_2500_div : round64 (2500 / 10000) = JsNum.fin (1 / 4) := by
  rw [round64_eq (2500 / 10000) (-2) 4503599627370496 (by norm_num) (by norm_num) (by norm_num)
    (by norm_num) (by norm_num) (by norm_num) (by norm_num)]
  norm_num

theorem round64_quarter_mul : round64 (1 / 4 * 100) = JsNum.fin (25) := by
  rw [round64_eq (1 / 4 * 100) 4 7036874417766400 (by norm_num) (by norm_num) (by norm_num)
    (by norm_num) (by norm_num) (by norm_num) (by norm_num)]
  norm_num

theorem round64_50_mul : round64 (50 * 10000) = JsNum.fin (500000) := by
  rw [round64_eq (50 * 10000) 18 8589934592000000 (by norm_num) (by norm_num) (by norm_num)
    (by norm_num) (by norm_num) (by norm_num) (by norm_num)]
  norm_num

theorem round64_500000_div : round64 (500000 / 100) = JsNum.fin (5000) := by
  rw [round64_eq (500000 / 100) 12 5497558138880000 (by norm_num) (by norm_num) (by norm_num)
    (by norm_num) (by norm_num) (by norm_num) (by norm_num)]
  norm_num

theorem round64_1_mul : round64 (1 * 10000) = JsNum.fin (10000) := by
  rw [round64_eq (1 * 10000) 13 5497558138880000 (by norm_num) (by norm_num) (by norm_num)
    (by norm_num) (by norm_num) (by norm_num) (by norm_num)]
  norm_num

theorem round64_7_mul : round64 (7 * 10000) = JsNum.fin (70000) := by
  rw [round64_eq (7 * 10000) 16 4810363371520000 (by norm_num) (by norm_num) (by norm_num)
    (by norm_num) (by norm_num) (by norm_num) (by norm_num)]
  norm_num

theorem round64_70000_div : round64 (70000 / 3) = JsNum.fin (6413817828693333 / 274877906944) := by
  rw [round64_eq (70000 / 3) 14 6413817828693333 (by norm_num) (by norm_num) (by norm_num)
    (by norm_num) (by norm_num) (by norm_num) (by norm_num)]
  norm_num

theorem round64_write7_div : round64 (6413817828693333 / 274877906944 / 10000) = JsNum.fin (2627099782632789 / 1125899906842624) := by
  rw [round64_eq (6413817828693333 / 274877906944 / 10000) 1 5254199565265578 (by norm_num) (by norm_num) (by norm_num)
    (by norm_num) (by norm_num) (by norm_num) (by norm_num)]
  norm_num

theorem round64_write7_mul : round64 (2627099782632789 / 1125899906842624 * 3) = JsNum.fin (7881299347898367 / 1125899906842624) := by
  rw [round64_eq (2627099782632789 / 1125899906842624 * 3) 2 7881299347898367 (by norm_num) (by norm_num) (by norm_num)
    (by norm_num) (by norm_num) (by norm_num) (by norm_num)]
  norm_num

theorem round64_1_div : round64 (1 / 10000) = JsNum.fin (7378697629483821 / 73786976294838206464) := by
  rw [round64_eq (1 / 10000) (-14) 7378697629483821 (by norm_num) (by norm_num) (by norm_num)
    (by norm_num) (by norm_num) (by norm_num) (by norm_num)]
  norm_num

theorem round64_read1_mul : round64 (7378697629483821 / 73786976294838206464 * 3) = JsNum.fin (2767011611056433 / 9223372036854775808) := by
  rw [round64_eq (7378697629483821 / 73786976294838206464 * 3) (-12) 5534023222112866 (by norm_num) (by norm_num) (by norm_num)
    (by norm_num) (by norm_num) (by norm_num) (by norm_num)]
  norm_num

theorem round64_read1_back : round64 (2767011611056433 / 9223372036854775808 * 10000) = JsNum.fin (6755399441055745 / 2251799813685248) := by
  rw [round64_eq (2767011611056433 / 9223372036854775808 * 10000) 1 6755399441055745 (by norm_num) (by norm_num) (by norm_num)
    (by norm_num) (by norm_num) (by norm_num) (by norm_num)]
  norm_num

theorem round64_read1_div : round64 (6755399441055745 / 2251799813685248 / 3) = JsNum.fin (4503599627370497 / 4503599627370496) := by
  rw [round64_eq (6755399441055745 / 2251799813685248 / 3) 0 4503599627370497 (by norm_num) (by norm_num) (by norm_num)
    (by norm_num) (by norm_num) (by norm_num) (by norm_num)]
  norm_num

theorem strDecimalLiteral_5000 :
    strDecimalLiteral (trimStart "5000") = some (JsNum.fin 5000) := by
  simp [trimStart, strDecimalLiteral, strUnsignedDecimalLiteral, isStrWhiteSpaceChar,
    digitsValue, exponentPart, round64_5000]

theorem strDecimalLiteral_50 :
    strDecimalLiteral (trimStart "50") = some (JsNum.fin 50) := by
  simp [trimStart, strDecimalLiteral, strUnsignedDecimalLiteral, isStrWhiteSpaceChar,
    digitsValue, exponentPart, round64_50]

theorem parseFloat_text_5000 : parseFloat (JsStr.text "5000") = JsNum.fin 5000 := by
  simp [parseFloat, strDecimalLiteral_5000]

theorem parseFloat_text_1 : parseFloat (JsStr.text "1") = JsNum.fin 1 := by
  simp [parseFloat, trimStart, strDecimalLiteral, strUnsignedDecimalLiteral,
    isStrWhiteSpaceChar, digitsValue, exponentPart, round64_1]

theorem parseFloat_text_abc : parseFloat (JsStr.text "abc") = JsNum.nan := by
  decide

/-! ## The scrubber conversions -/

/-- C1: reading the scrubber yields `raw / 10000 * duration` and writing a time to
the unfocused scrubber stores `time * 10000 / duration`, for every duration, in
the arithmetic of doubles; where no step is rounded this is the rational
`r / 10000 * d` and `t * 10000 / d`, and with duration 100 the raw value 5000
reads as 50 and the time 25 is stored as 2500 -/
theorem scrubber_conversion (p : Player) (t : JsNum) :
    p.controlScrubber
        = parseFloat p.elControlScrubber.value / JsNum.fin 10000 * p.video.duration
    ∧ (p.elControlScrubber.focused = false →
        (p.setControlScrubberUnfocused t).elControlScrubber.value
          = JsStr.ofNum (t * JsNum.fin 10000 / p.video.duration))
    ∧ (∀ r d : ℚ, parseFloat p.elControlScrubber.value = JsNum.fin r →
        p.video.duration = JsNum.fin d →
        round64 (r / 10000) = JsNum.fin (r / 10000) →
        round64 (r / 10000 * d) = JsNum.fin (r / 10000 * d) →
        p.controlScrubber = JsNum.fin (r / 10000 * d))
    ∧ (∀ q d : ℚ, d ≠ 0 → p.elControlScrubber.focused = false → t = JsNum.fin q →
        p.video.duration = JsNum.fin d →
        round64 (q * 10000) = JsNum.fin (q * 10000) →
        round64 (q * 10000 / d) = JsNum.fin (q * 10000 / d) →
        (p.setControlScrubberUnfocused t).elControlScrubber.value
          = JsStr.ofNum (JsNum.fin (q * 10000 / d)))
    ∧ (p.video.duration = JsNum.fin 100 → p.elControlScrubber.value = JsStr.text "5000" →
        p.controlScrubber = JsNum.fin 50)
    ∧ (p.video.duration = JsNum.fin 100 → p.elControlScrubber.focused = false →
        t = JsNum.fin 25 →
        (p.setControlScrubberUnfocused t).elControlScrubber.value
          = JsStr.ofNum (JsNum.fin 2500)) := by
  refine ⟨rfl, ?_, ?_, ?_, ?_, ?_⟩
  · intro hf
    simp [Player.setControlScrubberUnfocused, hf]
  · intro r d hr hd e1 e2
    simp only [Player.controlScrubber, hr, hd]
    rw [JsNum.fin_div_fin _ _ (by norm_num), e1, JsNum.fin_mul_fin, e2]
  · intro q d hd hf ht hdur e1 e2
    simp only [Player.setControlScrubberUnfocused, hf, ht, hdur, JsNum.fin_mul_fin, e1]
    rw [JsNum.fin_div_fin _ _ hd, e2]
    simp
  · intro hd hv
    simp only [Player.controlScrubber, hv, hd, parseFloat_text_5000]
    rw [JsNum.fin_div_fin _ _ (by norm_num), round64_5000_div, JsNum.fin_mul_fin,
      round64_half_mul]
  · intro hd hf ht
    simp only [Player.setControlScrubberUnfocused, hf, ht, hd, JsNum.fin_mul_fin,
      round64_25_mul]
    rw [JsNum.fin_div_fin _ _ (by norm_num), round64_250000_div]
    simp

/-- Witness of C1 on the sample player: raw value 5000 reads as 50 seconds and 25
seconds are stored as raw value 2500 -/
theorem scrubber_conversion_witness :
    samplePlayer.controlScrubber = JsNum.fin 50
    ∧ (samplePlayer.setControlScrubberUnfocused (JsNum.fin 25)).elControlScrubber.value
        = JsStr.ofNum (JsNum.fin 2500) :=
  ⟨(scrubber_conversion samplePlayer (JsNum.fin 25)).2.2.2.2.1 rfl rfl,
   (scrubber_conversion samplePlayer (JsNum.fin 25)).2.2.2.2.2 rfl rfl rfl⟩

/-- C10 fails as stated: on a video of 3 seconds, writing the time 7 to the
unfocused scrubber and reading it back yields `7 - 2 ^ (-50)`, and reading the raw
value 1 and writing the result back stores `1 + 2 ^ (-52)` -/
theorem scrubber_round_trip_counterexample :
    thirdsPlayer.video.duration = JsNum.fin 3
    ∧ (thirdsPlayer.setControlScrubberUnfocused (JsNum.fin 7)).controlScrubber
        = JsNum.fin (7881299347898367 / 1125899906842624)
    ∧ (thirdsPlayer.setControlScrubberUnfocused (JsNum.fin 7)).controlScrubber ≠ JsNum.fin 7
    ∧ parseFloat thirdsPlayer.elControlScrubber.value = JsNum.fin 1
    ∧ (thirdsPlayer.setControlScrubberUnfocused
          thirdsPlayer.controlScrubber).elControlScrubber.value
        = JsStr.ofNum (JsNum.fin (4503599627370497 / 4503599627370496))
    ∧ (thirdsPlayer.setControlScrubberUnfocused
          thirdsPlayer.controlScrubber).elControlScrubber.value
        ≠ JsStr.ofNum (JsNum.fin 1) := by
  have hw : (thirdsPlayer.setControlScrubberUnfocused (JsNum.fin 7)).controlScrubber
      = JsNum.fin (7881299347898367 / 1125899906842624) := by
    simp only [Player.setControlScrubberUnfocused, Player.controlScrubber, thirdsPlayer,
      Bool.false_eq_true, if_false, JsNum.fin_mul_fin, round64_7_mul]
    rw [JsNum.fin_div_fin _ _ (by norm_num), round64_70000_div]
    simp only [parseFloat]
    rw [JsNum.fin_div_fin _ _ (by norm_num), round64_write7_div, JsNum.fin_mul_fin,
      round64_write7_mul]
  have hr : (thirdsPlayer.setControlScrubberUnfocused
        thirdsPlayer.controlScrubber).elControlScrubber.value
      = JsStr.ofNum (JsNum.fin (4503599627370497 / 4503599627370496)) := by
    simp only [Player.setControlScrubberUnfocused, Player.controlScrubber, thirdsPlayer,
      Bool.false_eq_true, if_false, parseFloat_text_1]
    rw [JsNum.fin_div_fin _ _ (by norm_num), round64_1_div, JsNum.fin_mul_fin,
      round64_read1_mul, JsNum.fin_mul_fin, round64_read1_back,
      JsNum.fin_div_fin _ _ (by norm_num), round64_read1_div]
  refine ⟨rfl, hw, ?_, parseFloat_text_1, hr, ?_⟩
  · rw [hw]
    intro h
    have h2 := JsNum.fin.inj h
    norm_num at h2
  · rw [hr]
    intro h
    have h2 := JsNum.fin.inj (JsStr.ofNum.inj h)
    norm_num at h2

/-- C10 as amended: for a non-zero duration `d` the round trip is computed in the
arithmetic of doubles. Writing the double `t` to the unfocused scrubber and
reading it back returns `t` when none of `t * 10000`, `t * 10000 / d` and
`(t * 10000 / d) / 10000` is rounded; reading the raw value `r`, a double, and
writing the result back stores `r` again when none of `r / 10000`,
`r / 10000 * d` and `r / 10000 * d * 10000` is rounded -/
theorem scrubber_round_trip (p : Player) (d t : ℚ) (hd : d ≠ 0)
    (hdur : p.video.duration = JsNum.fin d) (hf : p.elControlScrubber.focused = false) :
    (round64 (t * 10000) = JsNum.fin (t * 10000) →
      round64 (t * 10000 / d) = JsNum.fin (t * 10000 / d) →
      round64 (t * 10000 / d / 10000) = JsNum.fin (t * 10000 / d / 10000) →
      round64 t = JsNum.fin t →
      (p.setControlScrubberUnfocused (JsNum.fin t)).controlScrubber = JsNum.fin t)
    ∧ (∀ r : ℚ, parseFloat p.elControlScrubber.value = JsNum.fin r →
        round64 (r / 10000) = JsNum.fin (r / 10000) →
        round64 (r / 10000 * d) = JsNum.fin (r / 10000 * d) →
        round64 (r / 10000 * d * 10000) = JsNum.fin (r / 10000 * d * 10000) →
        round64 r = JsNum.fin r →
        (p.setControlScrubberUnfocused p.controlScrubber).elControlScrubber.value
          = JsStr.ofNum (JsNum.fin r)) := by
  constructor
  · intro e1 e2 e3 e4
    have key : t * 10000 / d / 10000 * d = t := by field_simp; ring
    simp only [Player.setControlScrubberUnfocused, hf, Player.controlScrubber, hdur,
      JsNum.fin_mul_fin, e1]
    rw [JsNum.fin_div_fin _ _ hd, e2]
    simp only [Bool.false_eq_true, if_false, parseFloat]
    rw [JsNum.fin_div_fin _ _ (by norm_num), e3, hdur, JsNum.fin_mul_fin, key, e4]
  · intro r hr e1 e2 e3 e4
    have key : r / 10000 * d * 10000 / d = r := by field_simp
    simp only [Player.setControlScrubberUnfocused, hf, Player.controlScrubber, hdur, hr]
    rw [JsNum.fin_div_fin _ _ (by norm_num), e1, JsNum.fin_mul_fin, e2, JsNum.fin_mul_fin,
      e3, JsNum.fin_div_fin _ _ hd, key, e4]
    simp

/-- Witness of amended C10 on the sample player (duration 100): no step of the
round trip of 25 seconds, or of the raw value 5000, is rounded, and both survive -/
theorem scrubber_round_trip_witness :
    (samplePlayer.setControlScrubberUnfocused (JsNum.fin 25)).controlScrubber = JsNum.fin 25
    ∧ (samplePlayer.setControlScrubberUnfocused
          samplePlayer.controlScrubber).elControlScrubber.value
        = JsStr.ofNum (JsNum.fin 5000) :=
  ⟨(scrubber_round_trip samplePlayer 100 25 (by norm_num) rfl rfl).1
      (by norm_num [round64_250000]) (by norm_num [round64_2500])
      (by norm_num [round64_quarter]) round64_25,
   (scrubber_round_trip samplePlayer 100 25 (by norm_num) rfl rfl).2 5000
      parseFloat_text_5000 (by norm_num [round64_half]) (by norm_num [round64_50])
      (by norm_num [round64_500000]) round64_5000⟩

/-- C8 fails as stated: with a duration of zero, writing the time 1 to the
unfocused scrubber stores `Infinity`, and with an unknown (NaN) duration reading
the scrubber at raw value 5000 yields NaN -/
theorem scrubber_unguarded_counterexample :
    zeroDurationPlayer.video.duration = JsNum.fin 0
    ∧ (zeroDurationPlayer.setControlScrubberUnfocused (JsNum.fin 1)).elControlScrubber.value
        = JsStr.ofNum JsNum.pinf
    ∧ JsNum.pinf.isFinite = false
    ∧ unknownDurationPlayer.video.duration = JsNum.nan
    ∧ unknownDurationPlayer.controlScrubber = JsNum.nan
    ∧ JsNum.nan.isFinite = false := by
  refine ⟨rfl, ?_, rfl, rfl, ?_, rfl⟩
  · simp only [Player.setControlScrubberUnfocused, zeroDurationPlayer, samplePlayer,
      Player.create, JsNum.fin_mul_fin, round64_1_mul]
    show JsStr.ofNum (JsNum.div _ _) = _
    simp [JsNum.div]
  · simp only [Player.controlScrubber, unknownDurationPlayer, JsNum.mul_nan]

/-- C8 as amended: when the duration is zero or unknown the conversions carry no
guard and the division by the duration is carried out. With a duration of zero a
finite raw value reads as 0, but whatever time is written, the raw value stored
in the unfocused scrubber is an infinity or NaN; with an unknown (NaN) duration
reading yields NaN and writing stores NaN -/
theorem scrubber_zero_or_unknown_duration (p : Player) (t : JsNum) :
    (∀ r : ℚ, p.video.duration = JsNum.fin 0 →
        parseFloat p.elControlScrubber.value = JsNum.fin r → |r| < (2 : ℚ) ^ (1024 : ℤ) →
        p.controlScrubber = JsNum.fin 0)
    ∧ (p.video.duration = JsNum.fin 0 → p.elControlScrubber.focused = false →
        (parseFloat (p.setControlScrubberUnfocused t).elControlScrubber.value).isFinite = false)
    ∧ (p.video.duration = JsNum.nan → p.controlScrubber = JsNum.nan)
    ∧ (p.video.duration = JsNum.nan → p.elControlScrubber.focused = false →
        (p.setControlScrubberUnfocused t).elControlScrubber.value = JsStr.ofNum JsNum.nan) := by
  refine ⟨?_, ?_, ?_, ?_⟩
  · intro r hdur hr hlt
    have hb : |r / 10000| < (2 : ℚ) ^ (1024 : ℤ) - (2 : ℚ) ^ (970 : ℤ) := by
      rw [abs_div, abs_of_pos (by norm_num : (0 : ℚ) < 10000)]
      have h1 : |r| / 10000 < (2 : ℚ) ^ (1024 : ℤ) / 10000 :=
        div_lt_div_of_pos_right hlt (by norm_num)
      have h2 : (2 : ℚ) ^ (1024 : ℤ) / 10000 < (2 : ℚ) ^ (1024 : ℤ) - (2 : ℚ) ^ (970 : ℤ) := by
        norm_num
      exact h1.trans h2
    obtain ⟨x, hx⟩ := round64_of_lt _ hb
    simp only [Player.controlScrubber, hdur, hr]
    rw [JsNum.fin_div_fin _ _ (by norm_num), hx, JsNum.fin_mul_fin, mul_zero, round64_zero]
  · intro hdur hf
    simp only [Player.setControlScrubberUnfocused, hf, hdur, Bool.false_eq_true, if_false,
      parseFloat]
    exact JsNum.div_zero_not_finite _
  · intro hdur
    simp only [Player.controlScrubber, hdur, JsNum.mul_nan]
  · intro hdur hf
    simp [Player.setControlScrubberUnfocused, hf, hdur, JsNum.div_nan]

/-- Witness of amended C8: the sample player on a video of duration zero reads its
raw value 5000 as 0 and stores a non-finite raw value for the time 25 -/
theorem scrubber_zero_or_unknown_duration_witness :
    zeroDurationPlayer.controlScrubber = JsNum.fin 0
    ∧ (parseFloat (zeroDurationPlayer.setControlScrubberUnfocused
        (JsNum.fin 25)).elControlScrubber.value).isFinite = false :=
  ⟨(scrubber_zero_or_unknown_duration zeroDurationPlayer (JsNum.fin 25)).1 5000 rfl
      parseFloat_text_5000 (by norm_num [abs_of_pos]),
   (scrubber_zero_or_unknown_duration zeroDurationPlayer (JsNum.fin 25)).2.1 rfl rfl⟩

/-! ## The numeric time control -/

/-- C9: the change handler of the time control hands the result of `parseFloat` to
the `currentTime` setter of the video, which refuses a non-finite value. When the
text does not parse, or parses to an infinity, the handler throws and the player
is left as it was; when it parses to a finite number, that number becomes the
current time; so a finite current time is never replaced by a non-finite one -/
theorem time_change_keeps_finite (p : Player) (s : String)
    (hs : p.elControlTime.value = JsStr.text s) :
    (strDecimalLiteral (trimStart s) = none → p.onControlTimeChange.1 = p)
    ∧ (∀ q : ℚ, strDecimalLiteral (trimStart s) = some (JsNum.fin q) →
        p.onControlTimeChange.1.video.currentTime = JsNum.fin q)
    ∧ (∀ x : JsNum, strDecimalLiteral (trimStart s) = some x → x.isFinite = false →
        p.onControlTimeChange.1 = p)
    ∧ (p.onControlTimeChange.1.video.currentTime = p.video.currentTime
        ∨ (p.onControlTimeChange.1.video.currentTime = parseFloat (JsStr.text s)
          ∧ (parseFloat (JsStr.text s)).isFinite = true))
    ∧ (p.video.currentTime.isFinite = true →
        p.onControlTimeChange.1.video.currentTime.isFinite = true) := by
  have h0 : p.controlTime = parseFloat (JsStr.text s) := by
    simp [Player.controlTime, hs]
  refine ⟨?_, ?_, ?_, ?_, ?_⟩
  · intro hn
    simp [Player.onControlTimeChange, Player.setVideoTime, h0, parseFloat, hn,
      JsNum.isFinite]
  · intro q hq
    simp [Player.onControlTimeChange, Player.setVideoTime, h0, parseFloat, hq,
      JsNum.isFinite]
  · intro x hx hfin
    simp [Player.onControlTimeChange, Player.setVideoTime, h0, parseFloat, hx, hfin]
  · by_cases hfin : (parseFloat (JsStr.text s)).isFinite = true
    · right
      simp [Player.onControlTimeChange, Player.setVideoTime, h0, hfin]
    · left
      simp [Player.onControlTimeChange, Player.setVideoTime, h0, hfin]
  · intro hold
    by_cases hfin : (parseFloat (JsStr.text s)).isFinite = true
    · simp [Player.onControlTimeChange, Player.setVideoTime, h0, hfin]
    · simp [Player.onControlTimeChange, Player.setVideoTime, h0, hfin, hold]

/-- Witness of C9: the text `abc` leaves the sample player at 25 seconds, and the
text `50` moves it to 50 seconds -/
theorem time_change_keeps_finite_witness :
    badTimeTextPlayer.onControlTimeChange.1 = badTimeTextPlayer
    ∧ badTimeTextPlayer.video.currentTime = JsNum.fin 25
    ∧ (Player.onControlTimeChange
        { samplePlayer with elControlTime := ⟨JsStr.text "50", true⟩ }).1.video.currentTime
      = JsNum.fin 50 :=
  ⟨(time_change_keeps_finite badTimeTextPlayer "abc" rfl).1 (by decide), rfl,
   (time_change_keeps_finite { samplePlayer with elControlTime := ⟨JsStr.text "50", true⟩ }
      "50" rfl).2.1 50
      strDecimalLiteral_50⟩

/-! ## The timeupdate handlers -/

theorem Player.drawAnnotations_elControlTime (env : Env) (p : Player) :
    (p.drawAnnotations env).1.elControlTime = p.elControlTime := by
  unfold Player.drawAnnotations
  cases h : p.things <;> simp [h]

theorem Player.drawAnnotations_elControlScrubber (env : Env) (p : Player) :
    (p.drawAnnotations env).1.elControlScrubber = p.elControlScrubber := by
  unfold Player.drawAnnotations
  cases h : p.things <;> simp [h]

/-- C2: when the time control has focus and the scrubber does not, the timeupdate
handlers leave the time control as it is and set the scrubber to
`currentTime * 10000 / duration`; when the scrubber has focus and the time
control does not, they leave the scrubber as it is and set the time control to
`currentTime.toFixed(2)` -/
theorem timeupdate_skips_focused (env : Env) (p : Player) :
    (p.elControlTime.focused = true → p.elControlScrubber.focused = false →
        (p.onTimeupdate env).elControlTime = p.elControlTime
        ∧ (p.onTimeupdate env).elControlScrubber.value
            = JsStr.ofNum (p.video.currentTime * JsNum.fin 10000 / p.video.duration))
    ∧ (p.elControlScrubber.focused = true → p.elControlTime.focused = false →
        (p.onTimeupdate env).elControlScrubber = p.elControlScrubber
        ∧ (p.onTimeupdate env).elControlTime.value = toFixed2 p.video.currentTime) := by
  constructor
  · intro ht hs
    simp [Player.onTimeupdate, Player.drawAnnotations_elControlTime,
      Player.drawAnnotations_elControlScrubber, Player.setControlTimeUnfocused,
      Player.setControlScrubberUnfocused, Player.videoTime, ht, hs]
  · intro hs ht
    simp [Player.onTimeupdate, Player.drawAnnotations_elControlTime,
      Player.drawAnnotations_elControlScrubber, Player.setControlTimeUnfocused,
      Player.setControlScrubberUnfocused, Player.videoTime, ht, hs]

/-- Witness of C2 on the two sample players with a focused control -/
theorem timeupdate_skips_focused_witness :
    ((timeFocusedPlayer.onTimeupdate sampleEnv).elControlTime = timeFocusedPlayer.elControlTime
      ∧ (timeFocusedPlayer.onTimeupdate sampleEnv).elControlScrubber.value
          = JsStr.ofNum (timeFocusedPlayer.video.currentTime * JsNum.fin 10000
              / timeFocusedPlayer.video.duration))
    ∧ ((scrubberFocusedPlayer.onTimeupdate sampleEnv).elControlScrubber
          = scrubberFocusedPlayer.elControlScrubber
      ∧ (scrubberFocusedPlayer.onTimeupdate sampleEnv).elControlTime.value
          = toFixed2 scrubberFocusedPlayer.video.currentTime) :=
  ⟨(timeupdate_skips_focused sampleEnv timeFocusedPlayer).1 rfl rfl,
   (timeupdate_skips_focused sampleEnv scrubberFocusedPlayer).2 rfl rfl⟩

/-! ## Saving and creating annotations -/

/-- C4: with a populated entity sequence, `saveAnnotations` resolves with
`State saved successfully.` on an OK response and otherwise rejects with
`Error code ` followed by the status code (`Error code 500` for status 500); in
both cases the player, and so its entity sequence, is the same afterwards -/
theorem saveAnnotations_outcome (env : Env) (p : Player) (l : List Thing) (resp : Response)
    (hl : p.things = some l) :
    (resp.ok = true →
        p.saveAnnotations env (some resp)
          = some (⟨"/annotation/" ++ p.name, "post", "application/json", l.map env.toJson⟩,
              SaveOutcome.resolved "State saved successfully.", p))
    ∧ (resp.ok = false →
        p.saveAnnotations env (some resp)
          = some (⟨"/annotation/" ++ p.name, "post", "application/json", l.map env.toJson⟩,
              SaveOutcome.rejected ("Error code " ++ toString resp.status), p))
    ∧ (resp.ok = false → resp.status = 500 →
        ∃ req, p.saveAnnotations env (some resp)
          = some (req, SaveOutcome.rejected "Error code 500", p))
    ∧ (∃ req out, p.saveAnnotations env (some resp) = some (req, out, p))
    ∧ (∀ req out q, p.saveAnnotations env (some resp) = some (req, out, q) →
        q.things = some l) := by
  refine ⟨?_, ?_, ?_, ?_, ?_⟩
  · intro hok
    simp [Player.saveAnnotations, hl, hok]
  · intro hok
    simp [Player.saveAnnotations, hl, hok]
  · intro hok hst
    refine ⟨⟨"/annotation/" ++ p.name, "post", "application/json", l.map env.toJson⟩, ?_⟩
    simp only [Player.saveAnnotations, hl, hok, hst]
    rfl
  · cases hok : resp.ok <;> simp [Player.saveAnnotations, hl, hok]
  · intro req out q h
    cases hok : resp.ok <;> simp [Player.saveAnnotations, hl, hok] at h <;>
      (obtain ⟨_, _, rfl⟩ := h; exact hl)

/-- Witness of C4: a save of the populated sample player answered with status 500
rejects with `Error code 500` and leaves the player as it was -/
theorem saveAnnotations_outcome_witness :
    populatedPlayer.saveAnnotations sampleEnv (some ⟨false, 500⟩)
      = some (⟨"/annotation/" ++ populatedPlayer.name, "post", "application/json",
            [⟨7, [Call.drawAtTime (JsNum.fin 25)]⟩].map sampleEnv.toJson⟩,
          SaveOutcome.rejected ("Error code " ++ toString (500 : Nat)), populatedPlayer) :=
  (saveAnnotations_outcome sampleEnv populatedPlayer _ ⟨false, 500⟩ rfl).2.1 rfl

/-- C5: with a populated entity sequence, `setupNewThing(x, y)` appends exactly one
entity, the newly constructed one, after the existing entities, which keep their
order; on the new entity `setBounds` is called with `xMin = xMax = x` and
`yMin = yMax = y`, and `onDragStart` right after it -/
theorem setupNewThing_appends (env : Env) (p : Player) (l : List Thing) (x y : JsNum)
    (hl : p.things = some l) :
    ∃ thing : Thing,
      p.setupNewThing env x y = some { p with things := some (l ++ [thing]) }
      ∧ (l ++ [thing]).length = l.length + 1
      ∧ (l ++ [thing]).take l.length = l
      ∧ thing.data = (env.newThing p).data
      ∧ thing.calls = (env.newThing p).calls
          ++ [Call.setBounds { xMin := x, xMax := x, yMin := y, yMax := y }, Call.onDragStart] := by
  refine ⟨⟨(env.newThing p).data, (env.newThing p).calls
      ++ [Call.setBounds ⟨x, x, y, y⟩] ++ [Call.onDragStart]⟩, ?_, ?_, ?_, rfl, ?_⟩
  · simp only [Player.setupNewThing, hl]
  · simp
  · simp
  · simp

/-- Witness of C5: `setupNewThing(10, 20)` on the populated sample player -/
theorem setupNewThing_appends_witness :
    ∃ thing : Thing,
      populatedPlayer.setupNewThing sampleEnv (JsNum.fin 10) (JsNum.fin 20)
        = some { populatedPlayer with
            things := some ([⟨7, [Call.drawAtTime (JsNum.fin 25)]⟩] ++ [thing]) }
      ∧ thing.calls = [Call.setBounds ⟨JsNum.fin 10, JsNum.fin 10, JsNum.fin 20, JsNum.fin 20⟩,
          Call.onDragStart] := by
  obtain ⟨thing, h1, _, _, _, h2⟩ :=
    setupNewThing_appends sampleEnv populatedPlayer _ (JsNum.fin 10) (JsNum.fin 20) rfl
  exact ⟨thing, h1, h2⟩

/-! ## The load coordination keeps its invariant -/

theorem InvC_create : InvC Settlement.pending Settlement.pending PromiseAll.create
    LoadStage.fetching false := by
  simp [InvC, PromiseAll.create, Settlement.isRejected]

theorem InvC_fetchFulfilled {vl al : Settlement} {ld : PromiseAll} {has : Bool}
    (h : InvC vl al ld LoadStage.fetching has) : InvC vl al ld LoadStage.decoding has := by
  unfold InvC at *
  obtain ⟨rem, st⟩ := ld
  cases vl <;> cases al <;> cases st <;> simp [Settlement.isRejected] at h ⊢ <;> tauto

theorem InvC_rejectEarly {vl al : Settlement} {ld : PromiseAll} {stage : LoadStage} {has : Bool}
    (r : Reason) (h : InvC vl al ld stage has)
    (hs : stage = LoadStage.fetching ∨ stage = LoadStage.decoding)
    (hr : r = Reason.fetchFailed ∨ r = Reason.jsonFailed ∨ r = Reason.mapThrew) :
    InvC vl (Settlement.rejected r) (ld.elementRejected r) LoadStage.settled has := by
  unfold InvC at *
  obtain ⟨rem, st⟩ := ld
  rcases hs with hs | hs <;> subst hs <;> cases vl <;> cases al <;> cases st <;>
    simp [PromiseAll.elementRejected, Settlement.reject, Settlement.isRejected] at h ⊢ <;>
    tauto

theorem InvC_awaitVideo {al : Settlement} {ld : PromiseAll} {has : Bool}
    (h : InvC Settlement.pending al ld LoadStage.decoding has) :
    InvC Settlement.pending al ld LoadStage.awaitingVideo true := by
  unfold InvC at *
  obtain ⟨rem, st⟩ := ld
  cases al <;> cases st <;> simp [Settlement.isRejected] at h ⊢
  tauto

theorem InvC_rejectAfterAbort {al : Settlement} {ld : PromiseAll} {has : Bool} (r : Reason)
    (h : InvC (Settlement.rejected r) al ld LoadStage.decoding has) :
    InvC (Settlement.rejected r) (Settlement.rejected r) (ld.elementRejected r)
      LoadStage.settled true := by
  unfold InvC at *
  obtain ⟨rem, st⟩ := ld
  cases al <;> cases st <;>
    simp [PromiseAll.elementRejected, Settlement.reject, Settlement.isRejected] at h ⊢
  tauto

theorem InvC_drawResolved {al : Settlement} {ld : PromiseAll} {has : Bool}
    (h : InvC Settlement.resolved al ld LoadStage.decoding has) :
    InvC Settlement.resolved Settlement.resolved ld.elementFulfilled LoadStage.settled true := by
  unfold InvC at *
  obtain ⟨rem, st⟩ := ld
  obtain ⟨hrem, h⟩ := h
  change rem = _ at hrem
  subst hrem
  cases al <;> cases st <;>
    simp [PromiseAll.elementFulfilled, Settlement.resolve, Settlement.isRejected] at h ⊢

theorem InvC_drawRejected {al : Settlement} {ld : PromiseAll} {has : Bool}
    (h : InvC Settlement.resolved al ld LoadStage.decoding has) :
    InvC Settlement.resolved (Settlement.rejected Reason.drawThrew)
      (ld.elementRejected Reason.drawThrew) LoadStage.settled true := by
  unfold InvC at *
  obtain ⟨rem, st⟩ := ld
  cases al <;> cases st <;>
    simp [PromiseAll.elementRejected, Settlement.reject, Settlement.isRejected] at h ⊢
  tauto

theorem InvC_videoResolved {al : Settlement} {ld : PromiseAll} {stage : LoadStage} {has : Bool}
    (h : InvC Settlement.pending al ld stage has) (hs : stage ≠ LoadStage.awaitingVideo) :
    InvC Settlement.resolved al ld.elementFulfilled stage has := by
  unfold InvC at *
  obtain ⟨rem, st⟩ := ld
  obtain ⟨hrem, h⟩ := h
  change rem = _ at hrem
  subst hrem
  cases al <;> cases st <;> cases stage <;>
    simp [PromiseAll.elementFulfilled, Settlement.resolve, Settlement.isRejected] at h hs ⊢ <;>
    tauto

theorem InvC_videoResolvedDrawn {al : Settlement} {ld : PromiseAll} {has : Bool}
    (h : InvC Settlement.pending al ld LoadStage.awaitingVideo has) :
    InvC Settlement.resolved Settlement.resolved ld.elementFulfilled.elementFulfilled
      LoadStage.settled true := by
  unfold InvC at *
  obtain ⟨rem, st⟩ := ld
  obtain ⟨hrem, h⟩ := h
  change rem = _ at hrem
  subst hrem
  cases al <;> cases st <;>
    simp [PromiseAll.elementFulfilled, Settlement.resolve, Settlement.isRejected] at h ⊢

theorem InvC_videoResolvedDrawFailed {al : Settlement} {ld : PromiseAll} {has : Bool}
    (h : InvC Settlement.pending al ld LoadStage.awaitingVideo has) :
    InvC Settlement.resolved (Settlement.rejected Reason.drawThrew)
      (ld.elementFulfilled.elementRejected Reason.drawThrew) LoadStage.settled true := by
  unfold InvC at *
  obtain ⟨rem, st⟩ := ld
  obtain ⟨hrem, h⟩ := h
  change rem = _ at hrem
  subst hrem
  cases al <;> cases st <;>
    simp [PromiseAll.elementFulfilled, PromiseAll.elementRejected, Settlement.reject,
      Settlement.resolve, Settlement.isRejected] at h ⊢

theorem InvC_videoRejected {al : Settlement} {ld : PromiseAll} {stage : LoadStage} {has : Bool}
    (h : InvC Settlement.pending al ld stage has) (hs : stage ≠ LoadStage.awaitingVideo) :
    InvC (Settlement.rejected Reason.aborted) al (ld.elementRejected Reason.aborted)
      stage has := by
  unfold InvC at *
  obtain ⟨rem, st⟩ := ld
  cases al <;> cases st <;> cases stage <;>
    simp [PromiseAll.elementRejected, Settlement.reject, Settlement.isRejected] at h hs ⊢ <;>
    tauto

theorem InvC_videoRejectedAwaiting {al : Settlement} {ld : PromiseAll} {has : Bool}
    (h : InvC Settlement.pending al ld LoadStage.awaitingVideo has) :
    InvC (Settlement.rejected Reason.aborted) (Settlement.rejected Reason.aborted)
      ((ld.elementRejected Reason.aborted).elementRejected Reason.aborted)
      LoadStage.settled true := by
  unfold InvC at *
  obtain ⟨rem, st⟩ := ld
  cases al <;> cases st <;>
    simp [PromiseAll.elementRejected, Settlement.reject, Settlement.isRejected] at h ⊢
  tauto

theorem Inv_of_fields {q : Player} {vl al : Settlement} {ld : PromiseAll} {stage : LoadStage}
    {has : Bool} (h : InvC vl al ld stage has) (h1 : q.videoLoaded = vl)
    (h2 : q.annotationsLoaded = al) (h3 : q.loaded = ld) (h4 : q.stage = stage)
    (h5 : q.things.isSome = has) : Inv q := by
  unfold Inv
  rw [h1, h2, h3, h4, h5]
  exact h

theorem Inv.pending_of_stage {p : Player} (h : Inv p) (hs : p.stage ≠ LoadStage.settled) :
    p.annotationsLoaded = Settlement.pending := by
  by_contra hc
  exact hs (h.2.2.2.1.mpr hc)

theorem drawLoop_snd (env : Env) (t : JsNum) (l : List Thing) :
    (Player.drawLoop env t l).2 = none ∨ (Player.drawLoop env t l).2 = some Reason.drawThrew := by
  induction l with
  | nil => left; rfl
  | cons th rest ih =>
    unfold Player.drawLoop
    by_cases h : env.drawThrows th t = true
    · right; simp [h]
    · simp [h]; exact ih

theorem drawAnnotations_fields (env : Env) (p : Player) :
    (p.drawAnnotations env).1.videoLoaded = p.videoLoaded
    ∧ (p.drawAnnotations env).1.annotationsLoaded = p.annotationsLoaded
    ∧ (p.drawAnnotations env).1.loaded = p.loaded
    ∧ (p.drawAnnotations env).1.stage = p.stage
    ∧ (p.drawAnnotations env).1.things.isSome = p.things.isSome := by
  unfold Player.drawAnnotations
  cases h : p.things <;> simp [h]

theorem drawAnnotations_snd (env : Env) (p : Player) (h : p.things.isSome = true) :
    (p.drawAnnotations env).2 = none ∨ (p.drawAnnotations env).2 = some Reason.drawThrew := by
  unfold Player.drawAnnotations
  cases ht : p.things with
  | none => simp [ht] at h
  | some l => simpa using drawLoop_snd env _ l

/-- Effect of the initial draw on the coordination fields, for a pending
`annotationsLoaded` and assigned `things` -/
theorem initialDraw_fields (env : Env) (p : Player)
    (hal : p.annotationsLoaded = Settlement.pending) (hth : p.things.isSome = true) :
    (p.initialDraw env).videoLoaded = p.videoLoaded
    ∧ (p.initialDraw env).stage = LoadStage.settled
    ∧ (p.initialDraw env).things.isSome = true
    ∧ (((p.drawAnnotations env).2 = none
        ∧ (p.initialDraw env).annotationsLoaded = Settlement.resolved
        ∧ (p.initialDraw env).loaded = p.loaded.elementFulfilled)
      ∨ ((p.drawAnnotations env).2 = some Reason.drawThrew
        ∧ (p.initialDraw env).annotationsLoaded = Settlement.rejected Reason.drawThrew
        ∧ (p.initialDraw env).loaded = p.loaded.elementRejected Reason.drawThrew)) := by
  obtain ⟨d1, d2, d3, d4, d5⟩ := drawAnnotations_fields env p
  rw [hal] at d2
  rw [hth] at d5
  unfold Player.initialDraw
  rcases drawAnnotations_snd env p hth with ho | ho
  · simp [ho, Player.annotationsResolve, d1, d2, d3, d5]
  · simp [ho, Player.annotationsReject, d1, d2, d3, d5]

theorem annotationsReject_fields (p : Player) (r : Reason)
    (hal : p.annotationsLoaded = Settlement.pending) :
    (p.annotationsReject r).videoLoaded = p.videoLoaded
    ∧ (p.annotationsReject r).annotationsLoaded = Settlement.rejected r
    ∧ (p.annotationsReject r).loaded = p.loaded.elementRejected r
    ∧ (p.annotationsReject r).stage = LoadStage.settled
    ∧ (p.annotationsReject r).things = p.things := by
  simp [Player.annotationsReject, hal]

theorem Inv_create (src name : String) (video : Video) (ct cs : Control) :
    Inv (Player.create src name video ct cs) :=
  Inv_of_fields InvC_create rfl rfl rfl rfl rfl

theorem Inv.toC {p : Player} (h : Inv p) :
    InvC p.videoLoaded p.annotationsLoaded p.loaded p.stage p.things.isSome := h

theorem videoLoadedResolve_awaiting (env : Env) (p : Player)
    (hv : p.videoLoaded = Settlement.pending) (hs : p.stage = LoadStage.awaitingVideo) :
    p.videoLoadedResolve env
      = Player.initialDraw env
          { p with videoLoaded := Settlement.resolved, loaded := p.loaded.elementFulfilled } := by
  simp [Player.videoLoadedResolve, hv, hs]

theorem videoLoadedResolve_other (env : Env) (p : Player)
    (hv : p.videoLoaded = Settlement.pending) (hs : p.stage ≠ LoadStage.awaitingVideo) :
    p.videoLoadedResolve env
      = { p with videoLoaded := Settlement.resolved, loaded := p.loaded.elementFulfilled } := by
  simp [Player.videoLoadedResolve, hv, hs]

theorem videoLoadedResolve_settled (env : Env) (p : Player)
    (hv : p.videoLoaded ≠ Settlement.pending) : p.videoLoadedResolve env = p := by
  unfold Player.videoLoadedResolve
  split
  · rename_i h; exact absurd h hv
  · rfl

theorem videoLoadedReject_awaiting (p : Player)
    (hv : p.videoLoaded = Settlement.pending) (hs : p.stage = LoadStage.awaitingVideo) :
    p.videoLoadedReject
      = Player.annotationsReject
          { p with videoLoaded := Settlement.rejected Reason.aborted,
                   loaded := p.loaded.elementRejected Reason.aborted } Reason.aborted := by
  simp [Player.videoLoadedReject, hv, hs]

theorem videoLoadedReject_other (p : Player)
    (hv : p.videoLoaded = Settlement.pending) (hs : p.stage ≠ LoadStage.awaitingVideo) :
    p.videoLoadedReject
      = { p with videoLoaded := Settlement.rejected Reason.aborted,
                 loaded := p.loaded.elementRejected Reason.aborted } := by
  simp [Player.videoLoadedReject, hv, hs]

theorem videoLoadedReject_settled (p : Player)
    (hv : p.videoLoaded ≠ Settlement.pending) : p.videoLoadedReject = p := by
  unfold Player.videoLoadedReject
  split
  · rename_i h; exact absurd h hv
  · rfl

theorem Inv_videoLoadedResolve (env : Env) (p : Player) (h : Inv p) :
    Inv (p.videoLoadedResolve env) := by
  have hC := h.toC
  by_cases hv : p.videoLoaded = Settlement.pending
  · rw [hv] at hC
    by_cases hs : p.stage = LoadStage.awaitingVideo
    · rw [hs] at hC
      have hal : p.annotationsLoaded = Settlement.pending :=
        h.pending_of_stage (by simp [hs])
      have hth : p.things.isSome = true := (hC.2.2.2.2.1 rfl).2
      obtain ⟨f1, f2, f3, f4⟩ := initialDraw_fields env
        { p with videoLoaded := Settlement.resolved, loaded := p.loaded.elementFulfilled } hal hth
      rw [videoLoadedResolve_awaiting env p hv hs]
      rcases f4 with ⟨_, f5, f6⟩ | ⟨_, f5, f6⟩
      · exact Inv_of_fields (InvC_videoResolvedDrawn hC) f1 f5 f6 f2 f3
      · exact Inv_of_fields (InvC_videoResolvedDrawFailed hC) f1 f5 f6 f2 f3
    · rw [videoLoadedResolve_other env p hv hs]
      exact Inv_of_fields (InvC_videoResolved hC hs) rfl rfl rfl rfl rfl
  · rw [videoLoadedResolve_settled env p hv]
    exact h

theorem Inv_videoLoadedReject (p : Player) (h : Inv p) : Inv p.videoLoadedReject := by
  have hC := h.toC
  by_cases hv : p.videoLoaded = Settlement.pending
  · rw [hv] at hC
    by_cases hs : p.stage = LoadStage.awaitingVideo
    · rw [hs] at hC
      have hal : p.annotationsLoaded = Settlement.pending :=
        h.pending_of_stage (by simp [hs])
      have hth : p.things.isSome = true := (hC.2.2.2.2.1 rfl).2
      obtain ⟨f1, f2, f3, f4, f5⟩ := annotationsReject_fields
        { p with videoLoaded := Settlement.rejected Reason.aborted,
                 loaded := p.loaded.elementRejected Reason.aborted } Reason.aborted hal
      rw [videoLoadedReject_awaiting p hv hs]
      exact Inv_of_fields (InvC_videoRejectedAwaiting hC) f1 f2 f3 f4 (by rw [f5]; exact hth)
    · rw [videoLoadedReject_other p hv hs]
      exact Inv_of_fields (InvC_videoRejected hC hs) rfl rfl rfl rfl rfl
  · rw [videoLoadedReject_settled p hv]
    exact h

theorem Inv_rejectEarly (p : Player) (r : Reason) (h : Inv p)
    (hs : p.stage = LoadStage.fetching ∨ p.stage = LoadStage.decoding)
    (hr : r = Reason.fetchFailed ∨ r = Reason.jsonFailed ∨ r = Reason.mapThrew) :
    Inv (p.annotationsReject r) := by
  have hal : p.annotationsLoaded = Settlement.pending :=
    h.pending_of_stage (by rcases hs with hs | hs <;> simp [hs])
  obtain ⟨f1, f2, f3, f4, f5⟩ := annotationsReject_fields p r hal
  exact Inv_of_fields (InvC_rejectEarly r h.toC hs hr) f1 f2 f3 f4 (by rw [f5])

theorem onJson_unmapped (env : Env) (p : Player) (items : List Nat)
    (hm : items.mapM env.fromJson = none) :
    p.onJson env (Json.array items) = p.annotationsReject Reason.mapThrew := by
  simp only [Player.onJson, hm]

theorem onJson_pending (env : Env) (p : Player) (items : List Nat) (l : List Thing)
    (hm : items.mapM env.fromJson = some l) (hv : p.videoLoaded = Settlement.pending) :
    p.onJson env (Json.array items)
      = { p with things := some l, stage := LoadStage.awaitingVideo } := by
  simp only [Player.onJson, hm, hv]

theorem onJson_resolved (env : Env) (p : Player) (items : List Nat) (l : List Thing)
    (hm : items.mapM env.fromJson = some l) (hv : p.videoLoaded = Settlement.resolved) :
    p.onJson env (Json.array items) = Player.initialDraw env { p with things := some l } := by
  simp only [Player.onJson, hm, hv]

theorem onJson_rejected (env : Env) (p : Player) (items : List Nat) (l : List Thing)
    (r : Reason) (hm : items.mapM env.fromJson = some l)
    (hv : p.videoLoaded = Settlement.rejected r) :
    p.onJson env (Json.array items)
      = Player.annotationsReject { p with things := some l } r := by
  simp only [Player.onJson, hm, hv]

theorem Inv_onJson (env : Env) (p : Player) (json : Json) (h : Inv p)
    (hs : p.stage = LoadStage.decoding) : Inv (p.onJson env json) := by
  have hal : p.annotationsLoaded = Settlement.pending := h.pending_of_stage (by simp [hs])
  have hC := h.toC
  rw [hs] at hC
  cases json with
  | other => exact Inv_rejectEarly p _ h (Or.inr hs) (Or.inr (Or.inr rfl))
  | array items =>
    cases hm : items.mapM env.fromJson with
    | none =>
      rw [onJson_unmapped env p items hm]
      exact Inv_rejectEarly p _ h (Or.inr hs) (Or.inr (Or.inr rfl))
    | some l =>
      by_cases hv : p.videoLoaded = Settlement.pending
      · rw [hv] at hC
        rw [onJson_pending env p items l hm hv]
        exact Inv_of_fields (InvC_awaitVideo hC) hv rfl rfl rfl rfl
      · by_cases hv2 : p.videoLoaded = Settlement.resolved
        · rw [hv2] at hC
          rw [onJson_resolved env p items l hm hv2]
          obtain ⟨f1, f2, f3, f4⟩ := initialDraw_fields env { p with things := some l } hal rfl
          rcases f4 with ⟨_, f5, f6⟩ | ⟨_, f5, f6⟩
          · exact Inv_of_fields (InvC_drawResolved hC) (f1.trans hv2) f5 f6 f2 f3
          · exact Inv_of_fields (InvC_drawRejected hC) (f1.trans hv2) f5 f6 f2 f3
        · obtain ⟨r, hv3⟩ : ∃ r, p.videoLoaded = Settlement.rejected r := by
            cases hq : p.videoLoaded with
            | pending => exact absurd hq hv
            | resolved => exact absurd hq hv2
            | rejected r => exact ⟨r, rfl⟩
          rw [hv3] at hC
          rw [onJson_rejected env p items l r hm hv3]
          obtain ⟨f1, f2, f3, f4, f5⟩ :=
            annotationsReject_fields { p with things := some l } r hal
          exact Inv_of_fields (InvC_rejectAfterAbort r hC) (f1.trans hv3) f2 f3 f4
            (by rw [f5]; rfl)

theorem setControls_drawAnnotations_fields (env : Env) (p : Player) (a b : JsNum) :
    let q := (((p.setControlTimeUnfocused a).setControlScrubberUnfocused b).drawAnnotations env).1
    q.videoLoaded = p.videoLoaded ∧ q.annotationsLoaded = p.annotationsLoaded
    ∧ q.loaded = p.loaded ∧ q.stage = p.stage ∧ q.things.isSome = p.things.isSome := by
  obtain ⟨d1, d2, d3, d4, d5⟩ := drawAnnotations_fields env
    ((p.setControlTimeUnfocused a).setControlScrubberUnfocused b)
  have e : ∀ q : Player, (q.setControlScrubberUnfocused b).videoLoaded = q.videoLoaded
      ∧ (q.setControlScrubberUnfocused b).annotationsLoaded = q.annotationsLoaded
      ∧ (q.setControlScrubberUnfocused b).loaded = q.loaded
      ∧ (q.setControlScrubberUnfocused b).stage = q.stage
      ∧ (q.setControlScrubberUnfocused b).things = q.things := by
    intro q; unfold Player.setControlScrubberUnfocused; split <;> simp
  have e2 : (p.setControlTimeUnfocused a).videoLoaded = p.videoLoaded
      ∧ (p.setControlTimeUnfocused a).annotationsLoaded = p.annotationsLoaded
      ∧ (p.setControlTimeUnfocused a).loaded = p.loaded
      ∧ (p.setControlTimeUnfocused a).stage = p.stage
      ∧ (p.setControlTimeUnfocused a).things = p.things := by
    unfold Player.setControlTimeUnfocused; split <;> simp
  obtain ⟨g1, g2, g3, g4, g5⟩ := e (p.setControlTimeUnfocused a)
  obtain ⟨k1, k2, k3, k4, k5⟩ := e2
  intro q
  exact ⟨d1.trans (g1.trans k1), d2.trans (g2.trans k2), d3.trans (g3.trans k3),
    d4.trans (g4.trans k4), d5.trans (by rw [g5, k5])⟩

theorem Inv_step (env : Env) (p : Player) (e : Event) (h : Inv p) : Inv (step env p e) := by
  cases e with
  | loadedmetadata d w ht => exact Inv_videoLoadedResolve env _ h
  | abort => exact Inv_videoLoadedReject p h
  | fetchFulfilled =>
    by_cases hs : p.stage = LoadStage.fetching
    · have hC := h.toC
      rw [hs] at hC
      simp only [step, hs]
      exact Inv_of_fields (InvC_fetchFulfilled hC) rfl rfl rfl rfl rfl
    · have : step env p Event.fetchFulfilled = p := by
        simp only [step]
      rw [this]; exact h
  | fetchRejected =>
    by_cases hs : p.stage = LoadStage.fetching
    · simp only [step, hs]
      exact Inv_rejectEarly p _ h (Or.inl hs) (Or.inl rfl)
    · have : step env p Event.fetchRejected = p := by
        simp only [step]
      rw [this]; exact h
  | jsonFulfilled json =>
    by_cases hs : p.stage = LoadStage.decoding
    · simp only [step, hs]
      exact Inv_onJson env p json h hs
    · have : step env p (Event.jsonFulfilled json) = p := by
        simp only [step]
      rw [this]; exact h
  | jsonRejected =>
    by_cases hs : p.stage = LoadStage.decoding
    · simp only [step, hs]
      exact Inv_rejectEarly p _ h (Or.inr hs) (Or.inr (Or.inl rfl))
    · have : step env p Event.jsonRejected = p := by
        simp only [step]
      rw [this]; exact h
  | timeupdate t =>
    obtain ⟨f1, f2, f3, f4, f5⟩ := setControls_drawAnnotations_fields env
      { p with video := { p.video with currentTime := t } } t t
    exact Inv_of_fields h.toC f1 f2 f3 f4 f5

theorem Inv_run (env : Env) (p : Player) (es : List Event) (h : Inv p) :
    Inv (run env p es) := by
  induction es generalizing p with
  | nil => exact h
  | cons e es ih => exact ih _ (Inv_step env p e h)

/-! ## Claims on the load coordination -/

/-- C3: after every sequence of events, `loaded` is resolved exactly when both
`videoLoaded` and `annotationsLoaded` are resolved, and `loaded` is rejected as
soon as one of the two is rejected, whatever the order of the events -/
theorem loaded_iff_both (env : Env) (src name : String) (video : Video) (ct cs : Control)
    (es : List Event) :
    ((run env (Player.create src name video ct cs) es).loaded.state = Settlement.resolved ↔
      (run env (Player.create src name video ct cs) es).videoLoaded = Settlement.resolved
      ∧ (run env (Player.create src name video ct cs) es).annotationsLoaded
          = Settlement.resolved)
    ∧ (((run env (Player.create src name video ct cs) es).videoLoaded.isRejected = true
        ∨ (run env (Player.create src name video ct cs) es).annotationsLoaded.isRejected = true)
      → (run env (Player.create src name video ct cs) es).loaded.state.isRejected = true) := by
  have h := (Inv_run env _ es (Inv_create src name video ct cs)).toC
  exact ⟨h.2.1, h.2.2.1.mpr⟩

/-- Witness of C3: an abort during the fetch rejects `loaded`, and so does an
abort after the annotations were decoded -/
theorem loaded_iff_both_witness :
    (run sampleEnv samplePlayer [Event.abort]).loaded.state.isRejected = true
    ∧ (run sampleEnv samplePlayer [Event.fetchFulfilled, Event.jsonFulfilled (Json.array [7]),
        Event.abort]).loaded.state.isRejected = true :=
  ⟨(loaded_iff_both sampleEnv "/static/v.mp4" "v" sampleVideo ⟨JsStr.text "0.00", false⟩
      ⟨JsStr.text "5000", false⟩ [Event.abort]).2 (Or.inl rfl),
   (loaded_iff_both sampleEnv "/static/v.mp4" "v" sampleVideo ⟨JsStr.text "0.00", false⟩
      ⟨JsStr.text "5000", false⟩ [Event.fetchFulfilled, Event.jsonFulfilled (Json.array [7]),
        Event.abort]).2 (Or.inr rfl)⟩

/-- C6 fails as stated: when the video load is aborted after the annotations were
decoded, `annotationsLoaded` is rejected but the entity sequence still holds the
decoded entity -/
theorem failed_load_counterexample :
    (run sampleEnv samplePlayer [Event.fetchFulfilled, Event.jsonFulfilled (Json.array [7]),
        Event.abort]).annotationsLoaded = Settlement.rejected Reason.aborted
    ∧ (run sampleEnv samplePlayer [Event.fetchFulfilled, Event.jsonFulfilled (Json.array [7]),
        Event.abort]).things = some [⟨7, []⟩] := by
  constructor <;> rfl

theorem Reachable.inv {env : Env} {p : Player} (h : Reachable env p) : Inv p := by
  obtain ⟨src, name, video, ct, cs, es, rfl⟩ := h
  exact Inv_run env _ es (Inv_create src name video ct cs)

theorem initialDraw_failed (env : Env) (p : Player) (l : List Thing)
    (hal : p.annotationsLoaded = Settlement.pending) (hl : p.things = some l)
    (hd : (Player.drawLoop env p.video.currentTime l).2 = some Reason.drawThrew) :
    (p.initialDraw env).annotationsLoaded = Settlement.rejected Reason.drawThrew
    ∧ (p.initialDraw env).things = some (Player.drawLoop env p.video.currentTime l).1 := by
  have h2 : (p.drawAnnotations env).2 = some Reason.drawThrew := by
    simp [Player.drawAnnotations, hl, hd]
  have h1 : (p.drawAnnotations env).1.things
      = some (Player.drawLoop env p.video.currentTime l).1 := by
    simp [Player.drawAnnotations, hl]
  have h3 : (p.drawAnnotations env).1.annotationsLoaded = Settlement.pending :=
    (drawAnnotations_fields env p).2.1.trans hal
  obtain ⟨_, f2, _, _, f5⟩ :=
    annotationsReject_fields (p.drawAnnotations env).1 Reason.drawThrew h3
  simp only [Player.initialDraw, h2]
  exact ⟨f2, f5.trans h1⟩

/-- C6 as amended: every failing run of `loadAnnotations` rejects
`annotationsLoaded`: a failed fetch, a failed JSON decode, a body that is not an
array or a record that cannot be mapped, an abort of the video load (while the
chain waits for the video, or before the records arrive), and an initial draw that
throws (when the video loads after the records, or was loaded before them). When
the fetch, the decode or the mapping fails, `things` has never been assigned;
when the video load is aborted or the initial draw throws, `things` keeps the
decoded entities and is not emptied -/
theorem failed_load_things (env : Env) (p : Player) (hp : Reachable env p) :
    (∀ r, p.annotationsLoaded = Settlement.rejected r →
      ((r = Reason.fetchFailed ∨ r = Reason.jsonFailed ∨ r = Reason.mapThrew)
        ∧ p.things = none)
      ∨ ((r = Reason.aborted ∨ r = Reason.drawThrew) ∧ ∃ l, p.things = some l))
    ∧ (p.stage = LoadStage.fetching →
        (step env p Event.fetchRejected).annotationsLoaded
          = Settlement.rejected Reason.fetchFailed
        ∧ (step env p Event.fetchRejected).things = none)
    ∧ (p.stage = LoadStage.decoding →
        (step env p Event.jsonRejected).annotationsLoaded
          = Settlement.rejected Reason.jsonFailed
        ∧ (step env p Event.jsonRejected).things = none)
    ∧ (p.stage = LoadStage.decoding → ∀ items, items.mapM env.fromJson = none →
        (step env p (Event.jsonFulfilled (Json.array items))).annotationsLoaded
          = Settlement.rejected Reason.mapThrew
        ∧ (step env p (Event.jsonFulfilled (Json.array items))).things = none)
    ∧ (p.stage = LoadStage.decoding → ∀ items l r, items.mapM env.fromJson = some l →
        p.videoLoaded = Settlement.rejected r →
        (step env p (Event.jsonFulfilled (Json.array items))).annotationsLoaded
          = Settlement.rejected r
        ∧ (step env p (Event.jsonFulfilled (Json.array items))).things = some l)
    ∧ (p.stage = LoadStage.decoding →
        (step env p (Event.jsonFulfilled Json.other)).annotationsLoaded
          = Settlement.rejected Reason.mapThrew
        ∧ (step env p (Event.jsonFulfilled Json.other)).things = none)
    ∧ (p.stage = LoadStage.decoding → ∀ items l, items.mapM env.fromJson = some l →
        p.videoLoaded = Settlement.resolved →
        (Player.drawLoop env p.video.currentTime l).2 = some Reason.drawThrew →
        (step env p (Event.jsonFulfilled (Json.array items))).annotationsLoaded
          = Settlement.rejected Reason.drawThrew
        ∧ (step env p (Event.jsonFulfilled (Json.array items))).things
          = some (Player.drawLoop env p.video.currentTime l).1)
    ∧ (p.stage = LoadStage.awaitingVideo →
        (step env p Event.abort).annotationsLoaded = Settlement.rejected Reason.aborted
        ∧ (step env p Event.abort).things = p.things
        ∧ ∃ l, p.things = some l)
    ∧ (p.stage = LoadStage.awaitingVideo → ∀ d w h l, p.things = some l →
        (Player.drawLoop env p.video.currentTime l).2 = some Reason.drawThrew →
        (step env p (Event.loadedmetadata d w h)).annotationsLoaded
          = Settlement.rejected Reason.drawThrew
        ∧ (step env p (Event.loadedmetadata d w h)).things
          = some (Player.drawLoop env p.video.currentTime l).1) := by
  have hI := hp.inv
  have hC := hI.toC
  have hnone : p.things.isSome = false → p.things = none := by
    cases p.things <;> simp
  have hsome : p.things.isSome = true → ∃ l, p.things = some l := by
    cases p.things <;> simp
  refine ⟨?_, ?_, ?_, ?_, ?_, ?_, ?_, ?_, ?_⟩
  · intro r hr
    rcases hC.2.2.2.2.2.2.2.1 r hr with ⟨h1, h2⟩ | ⟨h1, h2⟩
    · exact Or.inl ⟨h1, hnone h2⟩
    · exact Or.inr ⟨h1, hsome h2⟩
  · intro hs
    have hal := hI.pending_of_stage (by simp [hs])
    obtain ⟨_, f2, _, _, f5⟩ := annotationsReject_fields p Reason.fetchFailed hal
    simp only [step, hs]
    exact ⟨f2, f5.trans (hnone (hC.2.2.2.2.2.1 (Or.inl hs)))⟩
  · intro hs
    have hal := hI.pending_of_stage (by simp [hs])
    obtain ⟨_, f2, _, _, f5⟩ := annotationsReject_fields p Reason.jsonFailed hal
    simp only [step, hs]
    exact ⟨f2, f5.trans (hnone (hC.2.2.2.2.2.1 (Or.inr hs)))⟩
  · intro hs items hm
    have hal := hI.pending_of_stage (by simp [hs])
    obtain ⟨_, f2, _, _, f5⟩ := annotationsReject_fields p Reason.mapThrew hal
    simp only [step, hs]
    rw [onJson_unmapped env p items hm]
    exact ⟨f2, f5.trans (hnone (hC.2.2.2.2.2.1 (Or.inr hs)))⟩
  · intro hs items l r hm hv
    have hal := hI.pending_of_stage (by simp [hs])
    obtain ⟨_, f2, _, _, f5⟩ := annotationsReject_fields { p with things := some l } r hal
    simp only [step, hs]
    rw [onJson_rejected env p items l r hm hv]
    exact ⟨f2, f5⟩
  · intro hs
    have hal := hI.pending_of_stage (by simp [hs])
    obtain ⟨_, f2, _, _, f5⟩ := annotationsReject_fields p Reason.mapThrew hal
    simp only [step, hs, Player.onJson]
    exact ⟨f2, f5.trans (hnone (hC.2.2.2.2.2.1 (Or.inr hs)))⟩
  · intro hs items l hm hv hd
    have hal := hI.pending_of_stage (by simp [hs])
    simp only [step, hs]
    rw [onJson_resolved env p items l hm hv]
    exact initialDraw_failed env { p with things := some l } l hal rfl hd
  · intro hs
    have hal := hI.pending_of_stage (by simp [hs])
    have hv := (hC.2.2.2.2.1 hs).1
    obtain ⟨_, f2, _, _, f5⟩ := annotationsReject_fields
      { p with videoLoaded := Settlement.rejected Reason.aborted,
               loaded := p.loaded.elementRejected Reason.aborted } Reason.aborted hal
    simp only [step]
    rw [videoLoadedReject_awaiting p hv hs]
    exact ⟨f2, f5, hsome (hC.2.2.2.2.1 hs).2⟩
  · intro hs d w h l hl hd
    have hal := hI.pending_of_stage (by simp [hs])
    have hv := (hC.2.2.2.2.1 hs).1
    have key := videoLoadedResolve_awaiting env
      (Player.initPaper { p with video :=
        { p.video with duration := d, videoWidth := w, videoHeight := h } }) hv hs
    simp only [step]
    rw [key]
    exact initialDraw_failed env
      { (Player.initPaper { p with video :=
          { p.video with duration := d, videoWidth := w, videoHeight := h } }) with
        videoLoaded := Settlement.resolved, loaded := p.loaded.elementFulfilled } l hal hl hd

/-- Witness of amended C6: once the sample player has decoded one record and waits
for the video, an abort rejects `annotationsLoaded` and leaves the decoded entity
in `things` -/
theorem failed_load_things_witness :
    Reachable sampleEnv (run sampleEnv samplePlayer
      [Event.fetchFulfilled, Event.jsonFulfilled (Json.array [7])])
    ∧ (step sampleEnv (run sampleEnv samplePlayer
        [Event.fetchFulfilled, Event.jsonFulfilled (Json.array [7])])
        Event.abort).annotationsLoaded = Settlement.rejected Reason.aborted
    ∧ (step sampleEnv (run sampleEnv samplePlayer
        [Event.fetchFulfilled, Event.jsonFulfilled (Json.array [7])]) Event.abort).things
      = (run sampleEnv samplePlayer
        [Event.fetchFulfilled, Event.jsonFulfilled (Json.array [7])]).things :=
  ⟨⟨"/static/v.mp4", "v", sampleVideo, ⟨JsStr.text "0.00", false⟩, ⟨JsStr.text "5000", false⟩,
      [Event.fetchFulfilled, Event.jsonFulfilled (Json.array [7])], rfl⟩,
   ((failed_load_things sampleEnv _
      ⟨"/static/v.mp4", "v", sampleVideo, ⟨JsStr.text "0.00", false⟩,
        ⟨JsStr.text "5000", false⟩,
        [Event.fetchFulfilled, Event.jsonFulfilled (Json.array [7])], rfl⟩).2.2.2.2.2.2.2.1 rfl).1,
   ((failed_load_things sampleEnv _
      ⟨"/static/v.mp4", "v", sampleVideo, ⟨JsStr.text "0.00", false⟩,
        ⟨JsStr.text "5000", false⟩,
        [Event.fetchFulfilled, Event.jsonFulfilled (Json.array [7])], rfl⟩).2.2.2.2.2.2.2.1
      rfl).2.1⟩

/-- C7 at the failing input: the metadata arrives, then a timeupdate is
delivered while the annotation fetch is still in flight; `drawAnnotations` is
entered although `things` has not been assigned, and throws a TypeError -/
theorem timeupdate_draws_unpopulated :
    (run sampleEnv samplePlayer
        [Event.loadedmetadata (JsNum.fin 100) 640 480, Event.timeupdate (JsNum.fin 1)]).drawPasses = 1
    ∧ (run sampleEnv samplePlayer
        [Event.loadedmetadata (JsNum.fin 100) 640 480, Event.timeupdate (JsNum.fin 1)]).things = none
    ∧ (run sampleEnv samplePlayer
        [Event.loadedmetadata (JsNum.fin 100) 640 480, Event.timeupdate (JsNum.fin 1)]).stage
        = LoadStage.fetching
    ∧ (Player.drawAnnotations sampleEnv (run sampleEnv samplePlayer
        [Event.loadedmetadata (JsNum.fin 100) 640 480])).2 = some Reason.typeError
    ∧ (run sampleEnv samplePlayer [Event.timeupdate (JsNum.fin 1)]).drawPasses = 1
    ∧ (run sampleEnv samplePlayer [Event.timeupdate (JsNum.fin 1)]).videoLoaded
        = Settlement.pending := by
  refine ⟨?_, ?_, ?_, ?_, ?_, ?_⟩ <;> rfl

end BeaverDam
